import Mathlib

/-!
Shallow embedding of the prodej-maklerka booking and finance endpoints
(netlify/functions/bookSlot.ts, captureSalesFinance.ts, resolveBookingToken.ts,
getBookingPageData.ts, utils/rateLimit.ts, utils/request.ts, utils/audit.ts).

Storage (Supabase tables) is modelled as in-memory lists of rows; each
supabase call (`eq` filters, `maybeSingle`, `single`, conditional `update`
with `select`) is translated to the corresponding list operation.  JavaScript
string coercions (`String(x || "")`, `String(x)`, `.trim()`, `.toLowerCase()`)
are mirrored by explicit helper functions.  Handlers become pure functions
from a request structure plus the database to a response, the new database,
the list of audit events emitted, and the rate-limiter keys consulted.
-/

namespace Prodej

/-- JavaScript `String(x || "")` applied to a nullable string column. -/
def orEmpty (o : Option String) : String := o.getD ""

/-- JavaScript `String(x)` applied to a nullable value (`String(null) = "null"`). -/
def jsString (o : Option String) : String :=
  match o with
  | some s => s
  | none => "null"

/-- JavaScript `toLowerCase`, restricted to ASCII case mapping, which is
sufficient for the literals (`"sell"`, `"prodej"`, `"sale"`) compared in
this codebase. -/
def lowerStr (s : String) : String := String.mk (s.data.map Char.toLower)

/-- JavaScript `String.prototype.trim`: strip leading and trailing
whitespace.  Implemented over the character list so that it evaluates by
kernel reduction. -/
def jsTrim (s : String) : String :=
  String.mk (((s.data.dropWhile Char.isWhitespace).reverse.dropWhile
    Char.isWhitespace).reverse)

/-- JavaScript falsy test on an optional string field
(`!x` is true for `undefined`, `null` and `""`). -/
def optFalsy (o : Option String) : Bool := orEmpty o == ""

/-- Supabase `.maybeSingle()`: one row yields that row; zero rows yields null
data; two or more rows yields an error, whose data is also null (every call
site in these handlers treats an error like missing data). -/
def maybeSingle {α : Type} (l : List α) : Option α :=
  match l with
  | [x] => some x
  | _ => none

/-- Supabase `.single()`: errors unless exactly one row matched; every call
site in these handlers treats the error as missing data. -/
def single {α : Type} (l : List α) : Option α :=
  match l with
  | [x] => some x
  | _ => none

/-! ## Listing eligibility gates

Each endpoint re-checks, after resolving its token, that the property is a
sales listing and that its status is `"available"`.  The gate of each
endpoint is transcribed separately from its own source lines. -/

/-- bookSlot.ts lines 263-266: business-type gate. -/
def bookSlotBusinessOk (business_type : Option String) : Bool :=
  let bt := lowerStr (orEmpty business_type)
  bt == "sell" || bt == "prodej" || bt == "sale"

/-- bookSlot.ts lines 267-269: status gate. -/
def bookSlotStatusOk (status : Option String) : Bool :=
  orEmpty status == "available"

/-- The listing-eligibility predicate of the book-slot endpoint. -/
def bookSlotIsEligible (business_type status : Option String) : Bool :=
  bookSlotBusinessOk business_type && bookSlotStatusOk status

/-- resolveBookingToken.ts lines 206-209: business-type gate. -/
def resolveBusinessOk (business_type : Option String) : Bool :=
  let bt := lowerStr (orEmpty business_type)
  bt == "sell" || bt == "prodej" || bt == "sale"

/-- resolveBookingToken.ts lines 211-213: status gate. -/
def resolveStatusOk (status : Option String) : Bool :=
  orEmpty status == "available"

/-- The listing-eligibility predicate of the resolve-booking-token endpoint. -/
def resolveIsEligible (business_type status : Option String) : Bool :=
  resolveBusinessOk business_type && resolveStatusOk status

/-- getBookingPageData.ts lines 113-116: business-type gate. -/
def getPageBusinessOk (business_type : Option String) : Bool :=
  let bt := lowerStr (orEmpty business_type)
  bt == "sell" || bt == "prodej" || bt == "sale"

/-- getBookingPageData.ts lines 117-119: status gate. -/
def getPageStatusOk (status : Option String) : Bool :=
  orEmpty status == "available"

/-- The listing-eligibility predicate of the get-booking-page-data endpoint. -/
def getPageIsEligible (business_type status : Option String) : Bool :=
  getPageBusinessOk business_type && getPageStatusOk status

/-- captureSalesFinance.ts lines 271-274: business-type gate
(`if (bt !== "sell" && bt !== "prodej")` — note no `"sale"`). -/
def captureBusinessOk (business_type : Option String) : Bool :=
  let bt := lowerStr (orEmpty business_type)
  bt == "sell" || bt == "prodej"

/-- captureSalesFinance.ts lines 275-277: status gate
(`property.status !== "available"` on the raw nullable column). -/
def captureStatusOk (status : Option String) : Bool :=
  status == some "available"

/-- The listing-eligibility predicate of the finance-submission endpoint. -/
def captureIsEligible (business_type status : Option String) : Bool :=
  captureBusinessOk business_type && captureStatusOk status

/-- The eligibility predicate as worded by the spec (section 4.4): true iff
`business_type` case-insensitively matches one of {sell, prodej, sale} and
`status` equals the literal string `"available"`.  Declared separately from
the per-endpoint gates so that each can be compared against it. -/
def specIsEligible (business_type status : Option String) : Bool :=
  (let bt := lowerStr (orEmpty business_type)
   bt == "sell" || bt == "prodej" || bt == "sale") && (orEmpty status == "available")

/-! ## Rate limiter (utils/rateLimit.ts) -/

/-- The in-memory store: a string-keyed map from limiter key to the bucket of
request timestamps (ms).  Modelled as an association list where an update
shadows older entries, matching JS `Map` get/set semantics. -/
abbrev RLStore := List (String × List Int)

/-- JS `store.get(key) ?? []`. -/
def storeGet (st : RLStore) (k : String) : List Int :=
  match st.find? (fun p => p.1 == k) with
  | some p => p.2
  | none => []

/-- JS `store.set(key, v)`. -/
def storeSet (st : RLStore) (k : String) (v : List Int) : RLStore :=
  (k, v) :: st.filter (fun p => p.1 != k)

/-- JS `Math.min(...l)` for the nonempty lists this code applies it to. -/
def listMin (l : List Int) : Int := (l.min?).getD 0

structure RateLimitResult where
  allowed : Bool
  remaining : Nat
  resetMs : Int
deriving DecidableEq

/-- utils/rateLimit.ts lines 269-291: the sliding-window `rateLimit` check.
`remaining` uses truncated `Nat` subtraction, which coincides with the
source's `Math.max(0, rule.max - recent.length)`. -/
def rateLimit (st : RLStore) (key : String) (maxReq : Nat) (windowMs now : Int) :
    RateLimitResult × RLStore :=
  let windowStart := now - windowMs
  let bucket := storeGet st key
  let recent := bucket.filter (fun t => windowStart < t)
  if maxReq ≤ recent.length then
    let oldest := listMin recent
    let resetMs := max 0 (oldest + windowMs - now)
    ({ allowed := false, remaining := 0, resetMs := resetMs }, storeSet st key recent)
  else
    let recent' := recent ++ [now]
    let remaining := maxReq - recent'.length
    let oldest := listMin recent'
    let resetMs := max 0 (oldest + windowMs - now)
    ({ allowed := true, remaining := remaining, resetMs := resetMs }, storeSet st key recent')

/-! ## Percent coercion (captureSalesFinance.ts `numberOrNull`) -/

/-- Classification of the JSON value found in `own_funds_pct` /
`mortgage_pct`: a finite number, a non-finite number (NaN or ±Infinity), a
non-empty string that `Number()` parses to a finite value, a non-empty
string whose `Number()` value is not finite, the empty string, JSON null,
or an absent field.  Finite numeric values are carried as integers (the
validations below only compare them against the integer bounds 0 and 100). -/
inductive PctInput
  | num (q : Int)
  | numNonFinite
  | str (q : Int)
  | strNonFinite (s : String)
  | emptyStr
  | null
  | absent
deriving DecidableEq

/-- captureSalesFinance.ts lines 433-437: `numberOrNull` — null, undefined and
`""` map to null; otherwise strings are coerced with `Number(...)` and any
non-finite result (NaN, ±Infinity) also maps to null. -/
def numberOrNull : PctInput → Option Int
  | .null => none
  | .absent => none
  | .emptyStr => none
  | .str q => some q
  | .strNonFinite _ => none
  | .num q => some q
  | .numNonFinite => none

/-- captureSalesFinance.ts lines 240-257: the three percent validations, in
source order; returns the error message of the first failing check. -/
def pctCheckError (own mort : Option Int) : Option String :=
  if (match own with
      | some o => decide (o < 0 ∨ 100 < o)
      | none => false) then
    some "own_funds_pct must be between 0 and 100"
  else if (match mort with
      | some m => decide (m < 0 ∨ 100 < m)
      | none => false) then
    some "mortgage_pct must be between 0 and 100"
  else
    match own, mort with
    | some o, some m =>
        if 100 < o + m then some "Sum of own_funds_pct and mortgage_pct must be ≤ 100"
        else none
    | _, _ => none

/-! ## Data model (Supabase rows) -/

inductive SlotStatus
  | available
  | booked
  | cancelled
deriving DecidableEq

/-- A `viewings` row. -/
structure Slot where
  id : String
  property_id : String
  slot_start : String
  slot_end : String
  status : SlotStatus
  applicant_id : Option String
deriving DecidableEq

/-- A `viewing_tokens` row. -/
structure ViewingTokenRow where
  id : String
  token : String
  applicant_id : Option String
  property_id : Option String
  used : Bool
deriving DecidableEq

/-- A `properties` row (columns the core reads). -/
structure PropertyRow where
  id : String
  property_code : Option String
  business_type : Option String
  status : Option String
deriving DecidableEq

/-- An `applicants` row (columns the core reads/writes). -/
structure ApplicantRow where
  id : String
  full_name : Option String
  email : Option String
  phone : Option String
  agreed_to_gdpr : Bool
deriving DecidableEq

/-- A `sales_inquiries` row. -/
structure SalesInquiryRow where
  id : String
  applicant_id : String
  property_id : String
  viewing_time : Option String
  financing_method : Option String
  own_funds_pct : Option Int
  mortgage_pct : Option Int
  has_advisor : Option String
  mortgage_progress : Option String
  tied_to_sale : Option Bool
  buyer_notes : Option String
  form_submitted_at : Option String
  utm_source : Option String
  utm_medium : Option String
  utm_campaign : Option String
  source : Option String
deriving DecidableEq

/-- An `applicant_identity_changes` row (utils of captureSalesFinance.ts,
lines 302-316). -/
structure IdentityChangeRec where
  applicant_id : String
  property_id : String
  changed_by : String
  old_first_name : Option String
  old_last_name : Option String
  old_email : Option String
  old_phone : Option String
  new_first_name : String
  new_last_name : Option String
  new_email : String
  new_phone : String
deriving DecidableEq

/-- The storage state. -/
structure Db where
  viewing_tokens : List ViewingTokenRow
  properties : List PropertyRow
  viewings : List Slot
  applicants : List ApplicantRow
  sales_inquiries : List SalesInquiryRow
  identity_changes : List IdentityChangeRec
deriving DecidableEq

/-- An audit event as emitted through `writeAuditEvent` (utils/audit.ts);
only the fields the claims reason about are kept. -/
structure AuditEvent where
  event_type : String
  ok : Bool
deriving DecidableEq

/-- An HTTP JSON response: status code and the `error` string, if any. -/
structure Resp where
  status : Nat
  error : Option String
deriving DecidableEq

/-! ## Slot booking engine (bookSlot.ts, handler steps 2 and 3) -/

/-- The filter of bookSlot.ts lines 288-294: slots booked by this applicant
for this property. -/
def isBookedFor (aid pid : String) (s : Slot) : Bool :=
  decide (s.applicant_id = some aid ∧ s.property_id = pid ∧ s.status = SlotStatus.booked)

/-- bookSlot.ts lines 287-301: if the applicant already has a booked slot for
this property, transition it back to `available` and clear `applicant_id`. -/
def releaseExisting (vs : List Slot) (aid pid : String) : List Slot :=
  match maybeSingle (vs.filter (isBookedFor aid pid)) with
  | some ex =>
      vs.map (fun s =>
        if s.id = ex.id then
          { s with status := SlotStatus.available, applicant_id := none }
        else s)
  | none => vs

/-- The conditional-update filter of bookSlot.ts lines 310-311:
`.eq("id", slotId).eq("status", "available")`. -/
def acquireHit (slotId : String) (s : Slot) : Bool :=
  decide (s.id = slotId ∧ s.status = SlotStatus.available)

/-- bookSlot.ts lines 304-312: the compare-and-swap `available → booked`.
Returns the updated table together with the affected rows (the source's
`updatedSlots` from `.select(...)`). -/
def acquireSlot (vs : List Slot) (slotId aid : String) : List Slot × List Slot :=
  let upd := fun (s : Slot) => { s with status := SlotStatus.booked, applicant_id := some aid }
  (vs.map (fun s => if acquireHit slotId s then upd s else s),
   (vs.filter (acquireHit slotId)).map upd)

/-- Handler steps 2-3 in sequence: release-before-acquire. -/
def bookSlotDbStep (vs : List Slot) (slotId aid pid : String) : List Slot × List Slot :=
  acquireSlot (releaseExisting vs aid pid) slotId aid

/-! ## The bookSlot handler (bookSlot.ts lines 184-474) -/

/-- The request-dependent inputs of the book-slot handler: the HTTP method,
the body length (for `bodyTooLarge`), the parsed body fields, the client ip,
whether the conditional update reports a storage error, and the row id the
database would assign if a `sales_inquiries` row is inserted. -/
structure BookReq where
  httpMethod : String
  bodyLen : Nat
  slotId : Option String
  token : Option String
  ip : String
  dbUpdateError : Bool
  insInquiryId : String
deriving DecidableEq

/-- The observable outcome of a book-slot request: response, new storage
state, audit events emitted, rate-limiter keys consulted, and the new
rate-limiter store. -/
structure BookOutcome where
  resp : Resp
  db : Db
  audits : List AuditEvent
  rlKeys : List String
  rl : RLStore
deriving DecidableEq

/-- bookSlot.ts lines 239-285 (handler steps 0-1): resolve the booking
token, verify the token's property is an eligible sales listing, fetch the
slot, and verify the slot belongs to the token's property.  Yields either
the error response or the resolved applicant id with the slot row. -/
def bookSlotAuthorize (slotId token : String) (db : Db) : Resp ⊕ (String × Slot) :=
  match maybeSingle (db.viewing_tokens.filter (fun v => v.token == token)) with
  | none => Sum.inl ⟨401, some "Invalid token"⟩
  | some vt =>
    if optFalsy vt.applicant_id || optFalsy vt.property_id then
      Sum.inl ⟨401, some "Invalid token"⟩
    else
      let applicantId := orEmpty vt.applicant_id
      let tokenPropertyId := orEmpty vt.property_id
      match single (db.properties.filter (fun p => p.id == tokenPropertyId)) with
      | none => Sum.inl ⟨401, some "Invalid token (property missing)"⟩
      | some tokenProperty =>
        if bookSlotBusinessOk tokenProperty.business_type = false then
          Sum.inl ⟨409, some "Property is not a sales listing"⟩
        else if bookSlotStatusOk tokenProperty.status = false then
          Sum.inl ⟨409, some "Property is not available"⟩
        else
          match single (db.viewings.filter (fun s => s.id == slotId)) with
          | none => Sum.inl ⟨404, some "Selected slot not found"⟩
          | some slotData =>
            if slotData.property_id ≠ tokenPropertyId then
              Sum.inl ⟨401, some "Token does not match this slot/property"⟩
            else
              Sum.inr (applicantId, slotData)

/-- bookSlot.ts lines 287-469 (handler steps 2-7): release-before-acquire,
the conditional update, the `sales_inquiries` viewing-time upsert, and the
success response.  Side effects with no bearing on storage or the response
(confirmation email, finance-link fetch, display reads) are omitted. -/
def bookSlotFinish (req : BookReq) (db : Db) (applicantId : String)
    (slotData : Slot) (rlKeys : List String) (rl : RLStore) : BookOutcome :=
  let slotId := orEmpty req.slotId
  let vsRel := releaseExisting db.viewings applicantId slotData.property_id
  if req.dbUpdateError then
    { resp := ⟨500, some "Database update failed"⟩,
      db := { db with viewings := vsRel }, audits := [], rlKeys := rlKeys, rl := rl }
  else
    let acq := acquireSlot vsRel slotId applicantId
    let db2 := { db with viewings := acq.1 }
    match acq.2 with
    | [] =>
        { resp := ⟨400, some "Slot not available anymore"⟩, db := db2,
          audits := [], rlKeys := rlKeys, rl := rl }
    | newSlot :: _ =>
      let db3 :=
        match maybeSingle (db2.sales_inquiries.filter
            (fun i => i.applicant_id == applicantId &&
                      i.property_id == slotData.property_id)) with
        | some inq =>
            { db2 with sales_inquiries := (db2.sales_inquiries.map
                (fun i => if i.id = inq.id then
                    { i with viewing_time := some newSlot.slot_start }
                  else i)) }
        | none =>
            { db2 with sales_inquiries := (db2.sales_inquiries ++
                [{ id := req.insInquiryId,
                   applicant_id := applicantId,
                   property_id := slotData.property_id,
                   viewing_time := some newSlot.slot_start,
                   financing_method := none, own_funds_pct := none,
                   mortgage_pct := none, has_advisor := none,
                   mortgage_progress := none, tied_to_sale := none,
                   buyer_notes := none, form_submitted_at := none,
                   utm_source := none, utm_medium := none,
                   utm_campaign := none,
                   source := some "booking_token" }]) }
      { resp := ⟨200, none⟩, db := db3, audits := [],
        rlKeys := rlKeys, rl := rl }

/-- bookSlot.ts lines 184-474: the handler (never calls `writeAuditEvent`,
so `audits` is `[]` on every path). -/
def bookSlot (req : BookReq) (db : Db) (rl : RLStore) (now : Int) : BookOutcome :=
  if req.httpMethod ≠ "POST" then
    { resp := ⟨405, some "Method Not Allowed"⟩, db := db, audits := [], rlKeys := [], rl := rl }
  else if 10000 < req.bodyLen then
    { resp := ⟨413, some "Request too large"⟩, db := db, audits := [], rlKeys := [], rl := rl }
  else if optFalsy req.slotId || optFalsy req.token then
    { resp := ⟨400, some "Missing slotId or token"⟩, db := db, audits := [], rlKeys := [], rl := rl }
  else
    let slotId := orEmpty req.slotId
    let token := orEmpty req.token
    if 64 < slotId.length || 256 < token.length then
      { resp := ⟨400, some "Invalid input"⟩, db := db, audits := [], rlKeys := [], rl := rl }
    else
      let ipKey := "bookSlot:ip:" ++ req.ip
      let rip := rateLimit rl ipKey 30 3600000 now
      if rip.1.allowed = false then
        { resp := ⟨429, some "Rate limit exceeded"⟩, db := db, audits := [],
          rlKeys := [ipKey], rl := rip.2 }
      else
        let tokKey := "bookSlot:tok:" ++ jsTrim token
        let rtok := rateLimit rip.2 tokKey 10 3600000 now
        if rtok.1.allowed = false then
          { resp := ⟨429, some "Rate limit exceeded"⟩, db := db, audits := [],
            rlKeys := [ipKey, tokKey], rl := rtok.2 }
        else
          match bookSlotAuthorize slotId (jsTrim token) db with
          | Sum.inl r =>
              { resp := r, db := db, audits := [], rlKeys := [ipKey, tokKey], rl := rtok.2 }
          | Sum.inr ctx =>
              bookSlotFinish req db ctx.1 ctx.2 [ipKey, tokKey] rtok.2

/-! ## The resolveBookingToken handler (resolveBookingToken.ts lines 123-232,
the rate-limited version) -/

structure ResolveReq where
  httpMethod : String
  token : Option String
  property_code : Option String
  ip : String
  supabaseEnvSet : Bool
deriving DecidableEq

structure ResolveOutcome where
  resp : Resp
  rlKeys : List String
  rl : RLStore
deriving DecidableEq

/-- resolveBookingToken.ts lines 123-232: the handler (a GET endpoint; it
performs no storage writes). -/
def resolveBookingToken (req : ResolveReq) (db : Db) (rl : RLStore) (now : Int) :
    ResolveOutcome :=
  if req.httpMethod ≠ "GET" then
    { resp := ⟨405, some "Method not allowed"⟩, rlKeys := [], rl := rl }
  else if req.supabaseEnvSet = false then
    { resp := ⟨500, some "Missing Supabase env vars"⟩, rlKeys := [], rl := rl }
  else
    let token := jsTrim (orEmpty req.token)
    let propertyCode := jsTrim (orEmpty req.property_code)
    if token = "" then
      { resp := ⟨400, some "Missing token"⟩, rlKeys := [], rl := rl }
    else if propertyCode = "" then
      { resp := ⟨400, some "Missing property_code"⟩, rlKeys := [], rl := rl }
    else if 256 < token.length then
      { resp := ⟨400, some "Token too long"⟩, rlKeys := [], rl := rl }
    else if 64 < propertyCode.length then
      { resp := ⟨400, some "property_code too long"⟩, rlKeys := [], rl := rl }
    else
      let ipKey := "resolveBookingToken:ip:" ++ req.ip
      let rip := rateLimit rl ipKey 120 600000 now
      if rip.1.allowed = false then
        { resp := ⟨429, some "Rate limit exceeded"⟩, rlKeys := [ipKey], rl := rip.2 }
      else
        let tokKey := "resolveBookingToken:tok:" ++ token
        let rtok := rateLimit rip.2 tokKey 60 600000 now
        if rtok.1.allowed = false then
          { resp := ⟨429, some "Rate limit exceeded"⟩, rlKeys := [ipKey, tokKey], rl := rtok.2 }
        else
          match maybeSingle (db.viewing_tokens.filter (fun v => v.token == token)) with
          | none =>
              { resp := ⟨401, some "Invalid token"⟩, rlKeys := [ipKey, tokKey], rl := rtok.2 }
          | some vt =>
            match single (db.properties.filter (fun p => some p.id == vt.property_id)) with
            | none =>
                { resp := ⟨401, some "Invalid token (property not found)"⟩,
                  rlKeys := [ipKey, tokKey], rl := rtok.2 }
            | some prop =>
              if resolveBusinessOk prop.business_type = false then
                { resp := ⟨409, some "Property is not a sales listing"⟩,
                  rlKeys := [ipKey, tokKey], rl := rtok.2 }
              else if resolveStatusOk prop.status = false then
                { resp := ⟨409, some "Property is not available"⟩,
                  rlKeys := [ipKey, tokKey], rl := rtok.2 }
              else
                let propCodeDb := jsTrim (orEmpty prop.property_code)
                if propCodeDb ≠ propertyCode then
                  { resp := ⟨401, some "Token does not match property"⟩,
                    rlKeys := [ipKey, tokKey], rl := rtok.2 }
                else
                  { resp := ⟨200, none⟩, rlKeys := [ipKey, tokKey], rl := rtok.2 }

/-! ## The captureSalesFinance handler (captureSalesFinance.ts lines 78-420) -/

/-- captureSalesFinance.ts `norm`: `String(v ?? "").trim()`. -/
def norm (v : Option String) : String := jsTrim (orEmpty v)

/-- The decoded claim set of a verified finance JWT. -/
structure FinClaims where
  purpose : Option String
  applicant_id : Option String
  property_id : Option String
  property_code : Option String
deriving DecidableEq

/-- The request-dependent inputs of the finance-submission handler.
`jwtClaims` is the outcome of `jwt.verify(finance_token, FINANCE_LINK_SECRET)`
(`none` means verification threw); `secretSet` is whether
`FINANCE_LINK_SECRET` is configured; `insInquiryId` is the row id the
database would assign to an inserted `sales_inquiries` row. -/
structure CaptureReq where
  httpMethod : String
  hasBody : Bool
  bodyLen : Nat
  property_code : Option String
  applicant_id : Option String
  full_name : Option String
  email : Option String
  phone : Option String
  gdpr_consent : Option Bool
  finance_token : Option String
  booking_token : Option String
  own_funds_pct : PctInput
  mortgage_pct : PctInput
  financing_method : Option String
  has_advisor : Option String
  mortgage_progress : Option String
  tied_to_sale : Option Bool
  buyer_notes : Option String
  utm_source : Option String
  utm_medium : Option String
  utm_campaign : Option String
  ip : String
  jwtClaims : Option FinClaims
  secretSet : Bool
  nowIso : String
  insInquiryId : String
deriving DecidableEq

/-- Injected storage-write failures for the fallible writes of the
finance-submission handler. -/
structure CaptureFaults where
  insChangeErr : Bool
  updApplicantErr : Bool
  findInqErr : Bool
  updInqErr : Bool
  insInqErr : Bool
deriving DecidableEq

/-- A storage mutation performed by the finance-submission handler, recorded
in execution order. -/
inductive DbWrite
  | identityChange (r : IdentityChangeRec)
  | updateApplicant (id fullName email phone : String)
  | updateInquiry (id : String)
  | insertInquiry (id : String)
deriving DecidableEq

structure CaptureOutcome where
  resp : Resp
  identity_changed : Option Bool
  db : Db
  writes : List DbWrite
  audits : List AuditEvent
  rlKeys : List String
  rl : RLStore
deriving DecidableEq

/-- An early-exit outcome of the finance-submission handler (no storage
mutation, no audit event). -/
def capExit (status : Nat) (msg : String) (db : Db) (rlKeys : List String)
    (rl : RLStore) : CaptureOutcome :=
  { resp := ⟨status, some msg⟩, identity_changed := none, db := db, writes := [],
    audits := [], rlKeys := rlKeys, rl := rl }

/-- captureSalesFinance.ts lines 347-361: the `payload` object applied to the
`sales_inquiries` row (an update leaves unlisted columns such as
`viewing_time` unchanged). -/
def inqPayloadApply (req : CaptureReq) (own mort : Option Int) (i : SalesInquiryRow) :
    SalesInquiryRow :=
  { i with
    financing_method := req.financing_method
    own_funds_pct := own
    mortgage_pct := mort
    has_advisor := req.has_advisor
    mortgage_progress := req.mortgage_progress
    tied_to_sale := req.tied_to_sale
    buyer_notes := req.buyer_notes
    form_submitted_at := some req.nowIso
    utm_source := req.utm_source
    utm_medium := req.utm_medium
    utm_campaign := req.utm_campaign }

/-- captureSalesFinance.ts lines 296-299: the identity-change test
(whitespace-trimmed, case-sensitive comparison of the three fields). -/
def identityChangedCalc (ex : ApplicantRow) (fullName : String)
    (email phone : Option String) : Bool :=
  norm ex.full_name != norm (some fullName) ||
  norm ex.email != norm email ||
  norm ex.phone != norm phone

/-- captureSalesFinance.ts lines 110-146: the basic body validations, in
source order; yields the response of the first failing check. -/
def captureValidateBody (req : CaptureReq) : Option Resp :=
  if optFalsy req.property_code then
    some ⟨400, some "property_code is required"⟩
  else if 64 < (jsString req.property_code).length then
    some ⟨400, some "property_code too long"⟩
  else
    let fullName := jsTrim (orEmpty req.full_name)
    if fullName = "" then
      some ⟨400, some "full_name is required"⟩
    else if 200 < fullName.length then
      some ⟨400, some "full_name too long"⟩
    else if optFalsy req.email || optFalsy req.phone then
      some ⟨400, some "email and phone are required"⟩
    else if 254 < (jsString req.email).length || 40 < (jsString req.phone).length then
      some ⟨400, some "Invalid email/phone"⟩
    else if req.gdpr_consent ≠ some true then
      some ⟨400, some "GDPR consent must be accepted"⟩
    else if jsTrim (orEmpty req.finance_token) = "" ∧ jsTrim (orEmpty req.booking_token) = "" then
      some ⟨401, some "Missing finance_token or booking_token"⟩
    else
      none

/-- captureSalesFinance.ts lines 150-232: determine `applicant_id` and
`property_id` from the finance JWT or, failing that, the booking token
(the token is authoritative). -/
def captureResolveToken (req : CaptureReq) (db : Db) : Resp ⊕ (String × String) :=
  let financeToken := jsTrim (orEmpty req.finance_token)
  let bookingToken := jsTrim (orEmpty req.booking_token)
  if financeToken ≠ "" then
    if req.secretSet = false then
      Sum.inl ⟨500, some "Missing FINANCE_LINK_SECRET"⟩
    else
      match req.jwtClaims with
      | none => Sum.inl ⟨401, some "Invalid or expired finance_token"⟩
      | some claims =>
        if claims.purpose ≠ some "finance_form_v1" then
          Sum.inl ⟨401, some "Invalid finance_token purpose"⟩
        else if optFalsy claims.applicant_id || optFalsy claims.property_id ||
            optFalsy claims.property_code then
          Sum.inl ⟨401, some "Incomplete finance_token"⟩
        else if jsTrim (jsString claims.property_code) ≠
            jsTrim (jsString req.property_code) then
          Sum.inl ⟨401, some "finance_token does not match property_code"⟩
        else
          Sum.inr (jsString claims.applicant_id, jsString claims.property_id)
  else
    if 256 < bookingToken.length then
      Sum.inl ⟨400, some "booking_token too long"⟩
    else
      match maybeSingle (db.viewing_tokens.filter
          (fun v => v.token == bookingToken)) with
      | none => Sum.inl ⟨401, some "Invalid booking_token"⟩
      | some vt =>
        if optFalsy vt.applicant_id || optFalsy vt.property_id then
          Sum.inl ⟨401, some "Invalid booking_token"⟩
        else
          match single (db.properties.filter
              (fun p => some p.id == vt.property_id)) with
          | none =>
              Sum.inl ⟨401, some "Invalid booking_token (property missing)"⟩
          | some propCheck =>
            if jsTrim (jsString propCheck.property_code) ≠
                jsTrim (jsString req.property_code) then
              Sum.inl ⟨401, some "booking_token does not match property_code"⟩
            else
              Sum.inr (jsString vt.applicant_id, jsString vt.property_id)

/-- captureSalesFinance.ts lines 234-415: the percent validation, listing
eligibility, applicant fetch, identity-change logging, applicant overwrite,
the `sales_inquiries` upsert, the terminal audit event and the success
response. -/
def captureFinish (req : CaptureReq) (db : Db) (faults : CaptureFaults)
    (verifiedApplicantId verifiedPropertyId : String) (rlKeys : List String)
    (rl : RLStore) : CaptureOutcome :=
  if verifiedApplicantId = "" ∨ verifiedPropertyId = "" then
    capExit 500 "Failed to resolve applicant/property from token" db rlKeys rl
  else
    let fullName := jsTrim (orEmpty req.full_name)
    let own := numberOrNull req.own_funds_pct
    let mort := numberOrNull req.mortgage_pct
    match pctCheckError own mort with
    | some msg => capExit 400 msg db rlKeys rl
    | none =>
      match single (db.properties.filter
          (fun p => p.id == verifiedPropertyId)) with
      | none => capExit 404 "Property not found" db rlKeys rl
      | some property =>
        if captureBusinessOk property.business_type = false then
          capExit 400 "Property is not a sales listing" db rlKeys rl
        else if captureStatusOk property.status = false then
          capExit 409 "Property is not available" db rlKeys rl
        else
          let property_id := property.id
          match single (db.applicants.filter
              (fun a => a.id == verifiedApplicantId)) with
          | none => capExit 404 "Applicant not found" db rlKeys rl
          | some existingApplicant =>
            let identityChanged :=
              identityChangedCalc existingApplicant fullName req.email req.phone
            let changeRec : IdentityChangeRec :=
              { applicant_id := verifiedApplicantId,
                property_id := property_id,
                changed_by := "buyer_form",
                old_first_name := existingApplicant.full_name,
                old_last_name := none,
                old_email := existingApplicant.email,
                old_phone := existingApplicant.phone,
                new_first_name := fullName,
                new_last_name := none,
                new_email := orEmpty req.email,
                new_phone := orEmpty req.phone }
            let db1 :=
              if identityChanged ∧ faults.insChangeErr = false then
                { db with identity_changes := db.identity_changes ++ [changeRec] }
              else db
            let writes1 : List DbWrite :=
              if identityChanged ∧ faults.insChangeErr = false then
                [DbWrite.identityChange changeRec]
              else []
            if faults.updApplicantErr then
              { resp := ⟨500, some "Failed to update applicant"⟩,
                identity_changed := none, db := db1, writes := writes1,
                audits := [], rlKeys := rlKeys, rl := rl }
            else
              let db2 := { db1 with applicants := (db1.applicants.map
                  (fun a => if a.id = verifiedApplicantId then
                      { a with
                        full_name := some fullName
                        email := some (orEmpty req.email)
                        phone := some (orEmpty req.phone)
                        agreed_to_gdpr := true }
                    else a)) }
              let writes2 := writes1 ++
                [DbWrite.updateApplicant verifiedApplicantId fullName
                  (orEmpty req.email) (orEmpty req.phone)]
              let findRes :=
                if faults.findInqErr then none
                else maybeSingle (db2.sales_inquiries.filter
                  (fun i => i.applicant_id == verifiedApplicantId &&
                            i.property_id == property_id))
              match findRes with
              | some existingInq =>
                if faults.updInqErr then
                  { resp := ⟨500, some "Failed to update sales inquiry"⟩,
                    identity_changed := none, db := db2, writes := writes2,
                    audits := [], rlKeys := rlKeys, rl := rl }
                else
                  { resp := ⟨200, none⟩,
                    identity_changed := some identityChanged,
                    db := { db2 with sales_inquiries := (db2.sales_inquiries.map
                      (fun i => if i.id = existingInq.id then
                          inqPayloadApply req own mort i
                        else i)) },
                    writes := writes2 ++ [DbWrite.updateInquiry existingInq.id],
                    audits := [⟨"finance_submitted", true⟩],
                    rlKeys := rlKeys, rl := rl }
              | none =>
                if faults.insInqErr then
                  { resp := ⟨500, some "Failed to create sales inquiry"⟩,
                    identity_changed := none, db := db2, writes := writes2,
                    audits := [], rlKeys := rlKeys, rl := rl }
                else
                  { resp := ⟨200, none⟩,
                    identity_changed := some identityChanged,
                    db := { db2 with sales_inquiries := (db2.sales_inquiries ++
                      [inqPayloadApply req own mort
                        { id := req.insInquiryId,
                          applicant_id := verifiedApplicantId,
                          property_id := property_id,
                          viewing_time := none,
                          financing_method := none, own_funds_pct := none,
                          mortgage_pct := none, has_advisor := none,
                          mortgage_progress := none, tied_to_sale := none,
                          buyer_notes := none, form_submitted_at := none,
                          utm_source := none, utm_medium := none,
                          utm_campaign := none, source := none }]) },
                    writes := writes2 ++ [DbWrite.insertInquiry req.insInquiryId],
                    audits := [⟨"finance_submitted", true⟩],
                    rlKeys := rlKeys, rl := rl }

/-- captureSalesFinance.ts lines 78-420: the handler. -/
def captureSalesFinance (req : CaptureReq) (db : Db) (faults : CaptureFaults)
    (rl : RLStore) (now : Int) : CaptureOutcome :=
  if req.httpMethod ≠ "POST" then
    capExit 405 "Method not allowed" db [] rl
  else if req.hasBody = false then
    capExit 400 "Missing request body" db [] rl
  else if 50000 < req.bodyLen then
    capExit 413 "Request too large" db [] rl
  else
    let ipKey := "captureSalesFinance:ip:" ++ req.ip
    let rip := rateLimit rl ipKey 30 3600000 now
    if rip.1.allowed = false then
      capExit 429 "Rate limit exceeded" db [ipKey] rip.2
    else
      match captureValidateBody req with
      | some r =>
          { resp := r, identity_changed := none, db := db, writes := [],
            audits := [], rlKeys := [ipKey], rl := rip.2 }
      | none =>
        match captureResolveToken req db with
        | Sum.inl r =>
            { resp := r, identity_changed := none, db := db, writes := [],
              audits := [], rlKeys := [ipKey], rl := rip.2 }
        | Sum.inr ctx =>
            captureFinish req db faults ctx.1 ctx.2
              [ipKey] rip.2

/-! ## Concrete fixtures (used by witnesses and counterexamples) -/

def exProp : PropertyRow :=
  { id := "P1", property_code := some "077-NP1", business_type := some "Prodej",
    status := some "available" }

def exVt : ViewingTokenRow :=
  { id := "VT1", token := "tok-1", applicant_id := some "A1",
    property_id := some "P1", used := false }

def exVt2 : ViewingTokenRow :=
  { id := "VT2", token := "tok-2", applicant_id := some "A2",
    property_id := some "P1", used := false }

def exSlot : Slot :=
  { id := "S1", property_id := "P1", slot_start := "2026-01-16T10:00:00Z",
    slot_end := "2026-01-16T10:30:00Z", status := SlotStatus.available,
    applicant_id := none }

def exSlot2 : Slot :=
  { id := "S2", property_id := "P1", slot_start := "2026-01-17T10:00:00Z",
    slot_end := "2026-01-17T10:30:00Z", status := SlotStatus.available,
    applicant_id := none }

def exSlotBooked : Slot :=
  { id := "S0", property_id := "P1", slot_start := "2026-01-15T10:00:00Z",
    slot_end := "2026-01-15T10:30:00Z", status := SlotStatus.booked,
    applicant_id := some "A1" }

def exApplicant : ApplicantRow :=
  { id := "A1", full_name := some "Jana Novakova", email := some "jana@example.com",
    phone := some "+420777111222", agreed_to_gdpr := false }

def exDb : Db :=
  { viewing_tokens := [exVt, exVt2], properties := [exProp], viewings := [exSlot],
    applicants := [exApplicant], sales_inquiries := [], identity_changes := [] }

def exBookReq : BookReq :=
  { httpMethod := "POST", bodyLen := 100, slotId := some "S1", token := some "tok-1",
    ip := "1.2.3.4", dbUpdateError := false, insInquiryId := "INQ1" }

def exCapReq : CaptureReq :=
  { httpMethod := "POST", hasBody := true, bodyLen := 100,
    property_code := some "077-NP1", applicant_id := none,
    full_name := some "Jana Novakova", email := some "jana@example.com",
    phone := some "+420777111222", gdpr_consent := some true,
    finance_token := none, booking_token := some "tok-1",
    own_funds_pct := PctInput.num 60, mortgage_pct := PctInput.num 40,
    financing_method := none, has_advisor := none, mortgage_progress := none,
    tied_to_sale := none, buyer_notes := none,
    utm_source := none, utm_medium := none, utm_campaign := none,
    ip := "1.2.3.4", jwtClaims := none, secretSet := false,
    nowIso := "2026-01-01T00:00:00Z", insInquiryId := "INQ1" }

def noFaults : CaptureFaults :=
  { insChangeErr := false, updApplicantErr := false, findInqErr := false,
    updInqErr := false, insInqErr := false }

/-- A verified finance JWT claim set bound to property code "OTHER". -/
def exFinClaims : FinClaims :=
  { purpose := some "finance_form_v1", applicant_id := some "A1",
    property_id := some "P1", property_code := some "OTHER" }

/-- The fixture request on the finance-token path whose claim-bound property
code ("OTHER") differs from the supplied one ("077-NP1"). -/
def exCapReqFin : CaptureReq :=
  { exCapReq with
    finance_token := some "ft-token"
    booking_token := none
    secretSet := true
    jwtClaims := some exFinClaims }

/-- The fixture request whose identity fields differ from the stored
applicant row (a changed phone number). -/
def exCapReqNewPhone : CaptureReq :=
  { exCapReq with phone := some "+420999999999" }

/-- A resolve-booking-token request whose property code does not match the
token's property. -/
def exResolveReqWrong : ResolveReq :=
  { httpMethod := "GET", token := some "tok-1", property_code := some "WRONG",
    ip := "1.2.3.4", supabaseEnvSet := true }

/-- The list of slot ids of a `viewings` table (the primary-key view used to
state uniqueness). -/
def slotIds (vs : List Slot) : List String := vs.map (fun s => s.id)

/-! # Theorems -/

/-! ## Helper lemmas -/

theorem storeGet_storeSet (st : RLStore) (k : String) (v : List Int) :
    storeGet (storeSet st k v) k = v := by
  simp [storeGet, storeSet, List.find?]

theorem listMin_mem {l : List Int} (h : l ≠ []) : listMin l ∈ l := by
  unfold listMin
  cases hm : l.min? with
  | none => exact absurd (List.min?_eq_none_iff.mp hm) h
  | some m =>
      simpa using List.min?_mem (fun x y => min_choice x y) hm

/-! ## Claim C5: the rate limiter -/

/-- Claim C5: for every key, `rateLimit` keeps a per-key list of request
timestamps; on each call it discards the timestamps at or before
`now - windowMs` (the survivors are the strictly-newer ones), and if the
count of survivors is already at least `max` it rejects without recording
the new attempt and reports the reset delay `oldest + windowMs - now`
computed from the oldest surviving timestamp; otherwise it records `now`,
accepts, and reports `remaining = max` minus the new count. -/
theorem rateLimit_check_spec (st : RLStore) (key : String) (maxReq : Nat)
    (windowMs now : Int) (hmax : 0 < maxReq) :
    (maxReq ≤ ((storeGet st key).filter (fun t => now - windowMs < t)).length →
      (rateLimit st key maxReq windowMs now).1.allowed = false ∧
      storeGet (rateLimit st key maxReq windowMs now).2 key =
        (storeGet st key).filter (fun t => now - windowMs < t) ∧
      (rateLimit st key maxReq windowMs now).1.resetMs =
        listMin ((storeGet st key).filter (fun t => now - windowMs < t)) + windowMs - now) ∧
    (((storeGet st key).filter (fun t => now - windowMs < t)).length < maxReq →
      (rateLimit st key maxReq windowMs now).1.allowed = true ∧
      storeGet (rateLimit st key maxReq windowMs now).2 key =
        (storeGet st key).filter (fun t => now - windowMs < t) ++ [now] ∧
      (rateLimit st key maxReq windowMs now).1.remaining =
        maxReq - (((storeGet st key).filter (fun t => now - windowMs < t)).length + 1)) := by
  constructor
  · intro hge
    have hne : (storeGet st key).filter (fun t => now - windowMs < t) ≠ [] := by
      intro hnil
      rw [hnil] at hge
      simp at hge
      omega
    have hmemf := listMin_mem hne
    have hgt : now - windowMs < listMin ((storeGet st key).filter (fun t => now - windowMs < t)) := by
      have := List.of_mem_filter hmemf
      simpa using this
    unfold rateLimit
    rw [if_pos hge]
    refine ⟨rfl, storeGet_storeSet _ _ _, ?_⟩
    show max 0 (listMin _ + windowMs - now) = _
    omega
  · intro hlt
    unfold rateLimit
    rw [if_neg (Nat.not_le.mpr hlt)]
    refine ⟨rfl, storeGet_storeSet _ _ _, ?_⟩
    simp

/-- Witness for C5: a concrete rejection (one surviving timestamp, max 1) and
by the same theorem the acceptance branch, at key "k". -/
theorem rateLimit_check_spec_witness :
    0 < 1 ∧
    ((1 ≤ ((storeGet [("k", [5, -100])] "k").filter (fun t => (6 : Int) - 10 < t)).length →
      (rateLimit [("k", [5, -100])] "k" 1 10 6).1.allowed = false ∧
      storeGet (rateLimit [("k", [5, -100])] "k" 1 10 6).2 "k" =
        (storeGet [("k", [5, -100])] "k").filter (fun t => (6 : Int) - 10 < t) ∧
      (rateLimit [("k", [5, -100])] "k" 1 10 6).1.resetMs =
        listMin ((storeGet [("k", [5, -100])] "k").filter (fun t => (6 : Int) - 10 < t)) + 10 - 6) ∧
    (((storeGet [("k", [5, -100])] "k").filter (fun t => (6 : Int) - 10 < t)).length < 1 →
      (rateLimit [("k", [5, -100])] "k" 1 10 6).1.allowed = true ∧
      storeGet (rateLimit [("k", [5, -100])] "k" 1 10 6).2 "k" =
        (storeGet [("k", [5, -100])] "k").filter (fun t => (6 : Int) - 10 < t) ++ [6] ∧
      (rateLimit [("k", [5, -100])] "k" 1 10 6).1.remaining =
        1 - (((storeGet [("k", [5, -100])] "k").filter (fun t => (6 : Int) - 10 < t)).length + 1))) :=
  ⟨by decide, rateLimit_check_spec [("k", [5, -100])] "k" 1 10 6 (by decide)⟩

/-! ## Claim C3: listing eligibility predicates -/

/-- Counterexample to C3: the four endpoints do NOT share one eligibility
predicate.  For a property with `business_type = "sale"` and
`status = "available"`, the predicate described by the spec (synonym set
{sell, prodej, sale}) accepts, and so do the book-slot, resolve-token and
booking-page endpoints, but the finance-submission endpoint
(captureSalesFinance.ts line 272: `bt !== "sell" && bt !== "prodej"`)
rejects it as not a sales listing. -/
theorem eligibility_not_uniform_cex :
    captureIsEligible (some "sale") (some "available") = false ∧
    specIsEligible (some "sale") (some "available") = true ∧
    bookSlotIsEligible (some "sale") (some "available") = true ∧
    resolveIsEligible (some "sale") (some "available") = true ∧
    getPageIsEligible (some "sale") (some "available") = true := by
  decide

/-- Claim C3 (amended): the book-slot, resolve-booking-token and
get-booking-page-data endpoints all apply the predicate of the spec
(business type case-insensitively in {sell, prodej, sale} and status equal
to "available"); the finance-submission endpoint instead accepts exactly the
properties whose business type lowercases to "sell" or "prodej" (not
"sale") with status "available". -/
theorem eligibility_predicates_characterization :
    (∀ bt st, bookSlotIsEligible bt st = specIsEligible bt st) ∧
    (∀ bt st, resolveIsEligible bt st = specIsEligible bt st) ∧
    (∀ bt st, getPageIsEligible bt st = specIsEligible bt st) ∧
    (∀ bt st, captureIsEligible bt st = true ↔
      ((lowerStr (orEmpty bt) = "sell" ∨ lowerStr (orEmpty bt) = "prodej") ∧
       orEmpty st = "available")) := by
  refine ⟨fun _ _ => rfl, fun _ _ => rfl, fun _ _ => rfl, fun bt st => ?_⟩
  cases st with
  | none =>
      simp [captureIsEligible, captureBusinessOk, captureStatusOk, orEmpty]
  | some s =>
      simp [captureIsEligible, captureBusinessOk, captureStatusOk, orEmpty,
        Bool.or_eq_true, Bool.and_eq_true, beq_iff_eq]

/-! ## Claim C10: non-finite percent inputs bypass validation -/

/-- Claim C10: `numberOrNull` maps non-numeric strings, non-finite numbers
(NaN), and the empty string to null; with a null percent the own-funds range
check and the sum check impose nothing (only the other field's range check
can still fire), and the submission stores null for the field instead of
being rejected.  The last two conjuncts run the full handler on an
otherwise-valid request whose `own_funds_pct` is the non-numeric string
"abc": it succeeds and the stored row holds null. -/
theorem numberOrNull_nonfinite_bypasses_validation :
    (∀ s, numberOrNull (PctInput.strNonFinite s) = none) ∧
    numberOrNull PctInput.numNonFinite = none ∧
    numberOrNull PctInput.emptyStr = none ∧
    numberOrNull PctInput.null = none ∧
    (∀ mort : Option Int, pctCheckError none mort =
      (match mort with
       | some m =>
           if m < 0 ∨ 100 < m then some "mortgage_pct must be between 0 and 100"
           else none
       | none => none)) ∧
    (captureSalesFinance { exCapReq with own_funds_pct := PctInput.strNonFinite "abc" }
        exDb noFaults [] 0).resp.status = 200 ∧
    (captureSalesFinance { exCapReq with own_funds_pct := PctInput.strNonFinite "abc" }
        exDb noFaults [] 0).db.sales_inquiries.map
      (fun i => i.own_funds_pct) = [none] := by
  refine ⟨fun _ => rfl, rfl, rfl, rfl, ?_, by decide, by decide⟩
  intro mort
  cases mort with
  | none => rfl
  | some m =>
      by_cases h : m < 0 ∨ 100 < m
      · simp [pctCheckError, h]
      · simp [pctCheckError, h]

/-! ## Claim C8: percent validation -/

/-- Claim C8: the finance submission accepts the percent fields iff each
present value lies in [0,100] and, when both are present, their sum is at
most 100; concretely, an otherwise-valid request with
`own_funds_pct = 70, mortgage_pct = 40` is rejected with 400 (sum over 100)
while `own_funds_pct = 60, mortgage_pct = 40` (the fixture) succeeds. -/
theorem percent_validation_spec :
    (∀ own mort : Option Int, pctCheckError own mort = none ↔
      ((∀ o, own = some o → 0 ≤ o ∧ o ≤ 100) ∧
       (∀ m, mort = some m → 0 ≤ m ∧ m ≤ 100) ∧
       (∀ o m, own = some o → mort = some m → o + m ≤ 100))) ∧
    (captureSalesFinance { exCapReq with own_funds_pct := PctInput.num 70 }
        exDb noFaults [] 0).resp =
      ⟨400, some "Sum of own_funds_pct and mortgage_pct must be ≤ 100"⟩ ∧
    (captureSalesFinance exCapReq exDb noFaults [] 0).resp.status = 200 := by
  refine ⟨?_, by decide, by decide⟩
  intro own mort
  cases own with
  | none =>
      cases mort with
      | none => simp [pctCheckError]
      | some m =>
          simp only [pctCheckError]
          by_cases h : m < 0 ∨ 100 < m
          · simp [h] <;> omega
          · simp [h] <;> omega
  | some o =>
      cases mort with
      | none =>
          simp only [pctCheckError]
          by_cases h : o < 0 ∨ 100 < o
          · simp [h] <;> omega
          · simp [h] <;> omega
      | some m =>
          simp only [pctCheckError]
          by_cases h : o < 0 ∨ 100 < o
          · simp [h] <;> omega
          · by_cases h2 : m < 0 ∨ 100 < m
            · simp [h, h2] <;> omega
            · by_cases h3 : (100 : Int) < o + m
              · simp [h, h2, h3] <;> omega
              · simp [h, h2, h3] <;> omega

set_option maxHeartbeats 1600000 in
theorem bookSlotFinish_audits (req : BookReq) (db : Db) (a : String) (s : Slot)
    (ks : List String) (rl : RLStore) : (bookSlotFinish req db a s ks rl).audits = [] := by
  unfold bookSlotFinish
  repeat' (first | split | dsimp only)
  all_goals rfl

set_option maxHeartbeats 1600000 in
theorem captureFinish_audits (req : CaptureReq) (db : Db) (f : CaptureFaults)
    (a p : String) (ks : List String) (rl : RLStore) :
    ((captureFinish req db f a p ks rl).resp.status = 200 ∧
     (captureFinish req db f a p ks rl).audits = [⟨"finance_submitted", true⟩]) ∨
    ((captureFinish req db f a p ks rl).resp.status ≠ 200 ∧
     (captureFinish req db f a p ks rl).audits = []) := by
  unfold captureFinish
  repeat' (first | split | dsimp only)
  all_goals simp [capExit]

set_option maxHeartbeats 1600000 in
theorem captureFinish_rlKeys (req : CaptureReq) (db : Db) (f : CaptureFaults)
    (a p : String) (ks : List String) (rl : RLStore) :
    (captureFinish req db f a p ks rl).rlKeys = ks := by
  unfold captureFinish
  repeat' (first | split | dsimp only)
  all_goals rfl

theorem captureValidateBody_status (req : CaptureReq) (r : Resp)
    (h : captureValidateBody req = some r) : r.status ≠ 200 := by
  unfold captureValidateBody at h
  repeat' (first | split at h | dsimp only at h)
  all_goals
    first
      | exact Option.noConfusion h
      | exact Sum.noConfusion h
      | (injection h with hr
         subst hr
         decide)

theorem captureResolveToken_status (req : CaptureReq) (db : Db) (r : Resp)
    (h : captureResolveToken req db = Sum.inl r) : r.status ≠ 200 := by
  unfold captureResolveToken at h
  repeat' (first | split at h | dsimp only at h)
  all_goals
    first
      | exact Option.noConfusion h
      | exact Sum.noConfusion h
      | (injection h with hr
         subst hr
         decide)

/-! ## Claim C4: audit events -/

/-- Counterexample to C4: a fully successful book-slot mutation emits no
audit event at all — bookSlot.ts never calls `writeAuditEvent` — so it is
not the case that every booking mutation emits exactly one terminal audit
event. -/
theorem bookSlot_success_emits_no_audit_cex :
    (bookSlot exBookReq exDb [] 0).resp.status = 200 ∧
    (bookSlot exBookReq exDb [] 0).audits = [] := by
  decide

set_option maxHeartbeats 1600000 in
/-- Claim C4 (amended): the book-slot handler emits no audit event on any
path, and the finance-submission handler emits exactly one audit event
(`finance_submitted`) precisely on its success path and none on any failure
path. -/
theorem audit_emission_characterization :
    (∀ req db rl now, (bookSlot req db rl now).audits = []) ∧
    (∀ req db faults rl now,
      (captureSalesFinance req db faults rl now).audits.length =
        (if (captureSalesFinance req db faults rl now).resp.status = 200 then 1 else 0)) := by
  constructor
  · intro req db rl now
    unfold bookSlot
    repeat' (first | split | dsimp only)
    all_goals (first | rfl | exact bookSlotFinish_audits ..)
  · intro req db faults rl now
    unfold captureSalesFinance
    split
    · rfl
    · split
      · rfl
      · split
        · rfl
        · dsimp only
          split
          · rfl
          · split
            · rename_i r h
              simp only [List.length_nil]
              rw [if_neg (captureValidateBody_status _ _ h)]
            · split
              · rename_i r h
                simp only [List.length_nil]
                rw [if_neg (captureResolveToken_status _ _ _ h)]
              · rename_i vp hvp
                rcases captureFinish_audits req db faults vp.1 vp.2
                    ["captureSalesFinance:ip:" ++ req.ip]
                    (rateLimit rl ("captureSalesFinance:ip:" ++ req.ip) 30 3600000 now).2 with
                  ⟨h200, haud⟩ | ⟨h200, haud⟩
                · rw [haud, if_pos h200]
                  rfl
                · rw [haud, if_neg h200]
                  rfl

/-! ## Claim C6: rate-limiter keys per mutating request -/

/-- Counterexample to C6: a finance-submission request that reaches storage
consults exactly one rate-limiter key (the IP key) — no token-keyed limiter
check is applied — so it is not the case that every mutating request applies
two independent rate-limiter checks. -/
theorem capture_single_rate_limit_key_cex :
    (captureSalesFinance exCapReq exDb noFaults [] 0).resp.status = 200 ∧
    (captureSalesFinance exCapReq exDb noFaults [] 0).rlKeys =
      ["captureSalesFinance:ip:1.2.3.4"] := by
  decide

/-- Claim C6 (amended): the book-slot handler applies both an IP-keyed and a
token-keyed limiter check before touching storage and returns 429 when
either rejects, while the finance-submission handler only ever consults the
single IP-keyed limiter. -/
theorem rate_limit_keys_characterization :
    (∀ req db faults rl now,
      (captureSalesFinance req db faults rl now).rlKeys = [] ∨
      (captureSalesFinance req db faults rl now).rlKeys =
        ["captureSalesFinance:ip:" ++ req.ip]) ∧
    (∀ req db rl now,
      req.httpMethod = "POST" → req.bodyLen ≤ 10000 →
      optFalsy req.slotId = false → optFalsy req.token = false →
      (orEmpty req.slotId).length ≤ 64 → (orEmpty req.token).length ≤ 256 →
      ((rateLimit rl ("bookSlot:ip:" ++ req.ip) 30 3600000 now).1.allowed = false →
        (bookSlot req db rl now).resp.status = 429 ∧
        (bookSlot req db rl now).rlKeys = ["bookSlot:ip:" ++ req.ip]) ∧
      ((rateLimit rl ("bookSlot:ip:" ++ req.ip) 30 3600000 now).1.allowed = true →
       (rateLimit (rateLimit rl ("bookSlot:ip:" ++ req.ip) 30 3600000 now).2
          ("bookSlot:tok:" ++ jsTrim (orEmpty req.token)) 10 3600000 now).1.allowed = false →
        (bookSlot req db rl now).resp.status = 429 ∧
        (bookSlot req db rl now).rlKeys =
          ["bookSlot:ip:" ++ req.ip, "bookSlot:tok:" ++ jsTrim (orEmpty req.token)])) := by
  constructor
  · intro req db faults rl now
    unfold captureSalesFinance
    repeat' (first | split | dsimp only)
    all_goals simp [capExit, captureFinish_rlKeys]
  · intro req db rl now hm hlen hslot htok hslen htlen
    constructor
    · intro hip
      unfold bookSlot
      rw [if_neg (by simp [hm]), if_neg (by omega), if_neg (by simp [hslot, htok]),
        if_neg (by simp only [Bool.or_eq_true, decide_eq_true_eq, not_or]; omega), if_pos hip]
      exact ⟨rfl, rfl⟩
    · intro hip htokrl
      unfold bookSlot
      rw [if_neg (by simp [hm]), if_neg (by omega), if_neg (by simp [hslot, htok]),
        if_neg (by simp only [Bool.or_eq_true, decide_eq_true_eq, not_or]; omega),
        if_neg (by simp [hip]), if_pos htokrl]
      exact ⟨rfl, rfl⟩

/-! ## Booking-engine helper lemmas -/

theorem single_eq_some {α : Type} {l : List α} {x : α} :
    single l = some x ↔ l = [x] := by
  cases l with
  | nil => simp [single]
  | cons a t =>
      cases t with
      | nil => simp [single]
      | cons b t2 => simp [single]

theorem maybeSingle_eq_some {α : Type} {l : List α} {x : α} :
    maybeSingle l = some x ↔ l = [x] := by
  cases l with
  | nil => simp [maybeSingle]
  | cons a t =>
      cases t with
      | nil => simp [maybeSingle]
      | cons b t2 => simp [maybeSingle]

theorem slotIds_map_of_id_preserving (vs : List Slot) (f : Slot → Slot)
    (hf : ∀ s, (f s).id = s.id) : slotIds (vs.map f) = slotIds vs := by
  simp only [slotIds, List.map_map]
  exact List.map_congr_left (fun s _ => hf s)

theorem nodup_ids_inj {vs : List Slot} (hnd : (slotIds vs).Nodup) {s t : Slot}
    (hs : s ∈ vs) (ht : t ∈ vs) (hid : s.id = t.id) : s = t :=
  List.inj_on_of_nodup_map (by simpa [slotIds] using hnd) hs ht hid

theorem releaseExisting_of_filter_single {vs : List Slot} {aid pid : String} {s1 : Slot}
    (hfilter : vs.filter (isBookedFor aid pid) = [s1]) :
    releaseExisting vs aid pid = vs.map (fun s =>
      if s.id = s1.id then { s with status := SlotStatus.available, applicant_id := none }
      else s) := by
  unfold releaseExisting
  rw [hfilter]
  rfl

theorem releaseExisting_cases (vs : List Slot) (aid pid : String) :
    releaseExisting vs aid pid = vs ∨
    ∃ ex, ex ∈ vs ∧ isBookedFor aid pid ex = true ∧
      releaseExisting vs aid pid = vs.map (fun s =>
        if s.id = ex.id then { s with status := SlotStatus.available, applicant_id := none }
        else s) := by
  unfold releaseExisting
  cases h : maybeSingle (vs.filter (isBookedFor aid pid)) with
  | none => exact Or.inl rfl
  | some ex =>
      right
      have hl := maybeSingle_eq_some.mp h
      have hmem : ex ∈ vs.filter (isBookedFor aid pid) := by
        rw [hl]
        exact List.mem_singleton.mpr rfl
      exact ⟨ex, (List.mem_filter.mp hmem).1, (List.mem_filter.mp hmem).2, rfl⟩

theorem acquireSlot_fst (vs : List Slot) (slotId aid : String) :
    (acquireSlot vs slotId aid).1 = vs.map (fun s =>
      if acquireHit slotId s then
        { s with status := SlotStatus.booked, applicant_id := some aid }
      else s) := rfl

theorem acquireSlot_snd (vs : List Slot) (slotId aid : String) :
    (acquireSlot vs slotId aid).2 = (vs.filter (acquireHit slotId)).map
      (fun s => { s with status := SlotStatus.booked, applicant_id := some aid }) := rfl

theorem acquireSlot_rows_nil_iff (vs : List Slot) (slotId aid : String) :
    (acquireSlot vs slotId aid).2 = [] ↔
      ∀ s ∈ vs, ¬(s.id = slotId ∧ s.status = SlotStatus.available) := by
  rw [acquireSlot_snd, List.map_eq_nil_iff, List.filter_eq_nil_iff]
  simp [acquireHit]

theorem acquireSlot_fst_of_rows_nil {vs : List Slot} {slotId aid : String}
    (h : (acquireSlot vs slotId aid).2 = []) : (acquireSlot vs slotId aid).1 = vs := by
  have hall := (acquireSlot_rows_nil_iff vs slotId aid).mp h
  rw [acquireSlot_fst]
  have hcongr : ∀ s ∈ vs,
      (if acquireHit slotId s then
        { s with status := SlotStatus.booked, applicant_id := some aid }
      else s) = s := by
    intro s hs
    rw [if_neg]
    simp only [acquireHit, decide_eq_true_eq]
    exact hall s hs
  simpa using List.map_congr_left hcongr

theorem slotIds_releaseExisting (vs : List Slot) (aid pid : String) :
    slotIds (releaseExisting vs aid pid) = slotIds vs := by
  rcases releaseExisting_cases vs aid pid with h | ⟨ex, _, _, h⟩
  · rw [h]
  · rw [h]
    apply slotIds_map_of_id_preserving
    intro s
    split <;> rfl

theorem slotIds_acquireSlot (vs : List Slot) (slotId aid : String) :
    slotIds (acquireSlot vs slotId aid).1 = slotIds vs := by
  rw [acquireSlot_fst]
  apply slotIds_map_of_id_preserving
  intro s
  split <;> rfl

theorem slotIds_bookSlotDbStep (vs : List Slot) (slotId aid pid : String) :
    slotIds (bookSlotDbStep vs slotId aid pid).1 = slotIds vs := by
  unfold bookSlotDbStep
  rw [slotIds_acquireSlot, slotIds_releaseExisting]

/-! ## Claim C2: release-before-acquire keeps at most one active booking -/

/-- Claim C2: starting from a table in which exactly one slot `s1` is booked
by applicant `aid` for property `pid` and the requested slot `s2`
(for the same property) is available, the release-before-acquire engine of
the book-slot handler succeeds, frees `s1` (status `available`,
`applicant_id` null), books `s2` under `aid`, leaves the target slot id the
only booked slot for the `(applicant, property)` pair, and preserves the
uniqueness of slot ids — so exactly one slot of the pair is booked
afterwards. -/
theorem bookSlot_release_before_acquire_at_most_one_active
    (vs : List Slot) (slotId aid pid : String) (s1 s2 : Slot)
    (hnd : (slotIds vs).Nodup)
    (hfilter : vs.filter (isBookedFor aid pid) = [s1])
    (hs2 : s2 ∈ vs) (hs2id : s2.id = slotId)
    (hs2st : s2.status = SlotStatus.available) (hs2p : s2.property_id = pid) :
    (bookSlotDbStep vs slotId aid pid).2 ≠ [] ∧
    { s1 with status := SlotStatus.available, applicant_id := none } ∈
      (bookSlotDbStep vs slotId aid pid).1 ∧
    { s2 with status := SlotStatus.booked, applicant_id := some aid } ∈
      (bookSlotDbStep vs slotId aid pid).1 ∧
    (∀ t ∈ (bookSlotDbStep vs slotId aid pid).1,
      isBookedFor aid pid t = true → t.id = slotId) ∧
    (slotIds (bookSlotDbStep vs slotId aid pid).1).Nodup := by
  have hs1f : s1 ∈ vs.filter (isBookedFor aid pid) := by
    rw [hfilter]
    exact List.mem_singleton.mpr rfl
  obtain ⟨hs1, hs1b⟩ := List.mem_filter.mp hs1f
  have hb1 : s1.applicant_id = some aid ∧ s1.property_id = pid ∧
      s1.status = SlotStatus.booked := by
    simpa [isBookedFor] using hs1b
  have hne12 : s1.id ≠ s2.id := by
    intro h
    have heq := nodup_ids_inj hnd hs1 hs2 h
    rw [heq] at hb1
    exact SlotStatus.noConfusion (hs2st.symm.trans hb1.2.2)
  have hne1slot : s1.id ≠ slotId := hs2id ▸ hne12
  set fR := fun s : Slot =>
    if s.id = s1.id then { s with status := SlotStatus.available, applicant_id := none }
    else s with hfR
  set fA := fun s : Slot =>
    if acquireHit slotId s then { s with status := SlotStatus.booked, applicant_id := some aid }
    else s with hfA
  have hrel : releaseExisting vs aid pid = vs.map fR :=
    releaseExisting_of_filter_single hfilter
  have hstep1 : (bookSlotDbStep vs slotId aid pid).1 = (vs.map fR).map fA := by
    unfold bookSlotDbStep
    rw [hrel, acquireSlot_fst]
  have hstep2 : (bookSlotDbStep vs slotId aid pid).2 =
      ((vs.map fR).filter (acquireHit slotId)).map
        (fun s => { s with status := SlotStatus.booked, applicant_id := some aid }) := by
    unfold bookSlotDbStep
    rw [hrel, acquireSlot_snd]
  have hfRs2 : fR s2 = s2 := by
    simp only [hfR]
    rw [if_neg (fun h => hne12 h.symm)]
  have hhit2 : acquireHit slotId s2 = true := by
    simp [acquireHit, hs2id, hs2st]
  have hmem2rel : s2 ∈ vs.map fR := by
    have h := List.mem_map_of_mem fR hs2
    rwa [hfRs2] at h
  refine ⟨?_, ?_, ?_, ?_, ?_⟩
  · rw [hstep2]
    apply List.ne_nil_of_mem
      (a := { s2 with status := SlotStatus.booked, applicant_id := some aid })
    exact List.mem_map_of_mem _ (List.mem_filter.mpr ⟨hmem2rel, hhit2⟩)
  · have hfRs1 : fR s1 =
        { s1 with status := SlotStatus.available, applicant_id := none } := by
      simp [hfR]
    have hfAfree : fA { s1 with status := SlotStatus.available, applicant_id := none } =
        { s1 with status := SlotStatus.available, applicant_id := none } := by
      simp only [hfA]
      rw [if_neg]
      simp only [acquireHit, decide_eq_true_eq, not_and]
      intro h
      exact absurd h hne1slot
    rw [hstep1]
    have h1 := List.mem_map_of_mem fR hs1
    rw [hfRs1] at h1
    have h2 := List.mem_map_of_mem fA h1
    rwa [hfAfree] at h2
  · have hfAs2 : fA s2 =
        { s2 with status := SlotStatus.booked, applicant_id := some aid } := by
      simp [hfA, hhit2]
    rw [hstep1]
    have h2 := List.mem_map_of_mem fA hmem2rel
    rwa [hfAs2] at h2
  · intro t ht hbt
    rw [hstep1, List.map_map] at ht
    obtain ⟨s, hs, hts⟩ := List.mem_map.mp ht
    by_cases hhit : acquireHit slotId (fR s) = true
    · have hid : t.id = (fR s).id := by
        rw [← hts]
        simp [Function.comp, hfA, hhit]
      have := (by simpa [acquireHit] using hhit :
        (fR s).id = slotId ∧ (fR s).status = SlotStatus.available)
      rw [hid, this.1]
    · have hteq : t = fR s := by
        rw [← hts]
        simp [Function.comp, hfA, hhit]
      by_cases hid : s.id = s1.id
      · have hss1 : s = s1 := nodup_ids_inj hnd hs hs1 hid
        rw [hteq, hss1] at hbt
        simp [hfR, isBookedFor] at hbt
      · have hfRs : fR s = s := by
          simp [hfR, hid]
        rw [hteq, hfRs] at hbt
        have hsf : s ∈ vs.filter (isBookedFor aid pid) :=
          List.mem_filter.mpr ⟨hs, hbt⟩
        rw [hfilter] at hsf
        exact absurd (by rw [List.mem_singleton.mp hsf]) hid
  · rw [slotIds_bookSlotDbStep]
    exact hnd

/-- Witness for C2: the concrete table [S0 booked by A1, S2 available], a
second booking of S2 by A1 for property P1. -/
theorem bookSlot_release_before_acquire_witness :
    (bookSlotDbStep [exSlotBooked, exSlot2] "S2" "A1" "P1").2 ≠ [] ∧
    { exSlotBooked with status := SlotStatus.available, applicant_id := none } ∈
      (bookSlotDbStep [exSlotBooked, exSlot2] "S2" "A1" "P1").1 ∧
    { exSlot2 with status := SlotStatus.booked, applicant_id := some "A1" } ∈
      (bookSlotDbStep [exSlotBooked, exSlot2] "S2" "A1" "P1").1 ∧
    (∀ t ∈ (bookSlotDbStep [exSlotBooked, exSlot2] "S2" "A1" "P1").1,
      isBookedFor "A1" "P1" t = true → t.id = "S2") ∧
    (slotIds (bookSlotDbStep [exSlotBooked, exSlot2] "S2" "A1" "P1").1).Nodup :=
  bookSlot_release_before_acquire_at_most_one_active
    [exSlotBooked, exSlot2] "S2" "A1" "P1" exSlotBooked exSlot2
    (by decide) (by decide) (by decide) (by decide) (by decide) (by decide)

/-- Witness for C6: with the IP bucket already holding 30 fresh timestamps,
the book-slot handler rejects with 429 after consulting only the IP key. -/
theorem rate_limit_keys_characterization_witness :
    (bookSlot exBookReq exDb [("bookSlot:ip:1.2.3.4", List.replicate 30 0)] 1).resp.status = 429 ∧
    (bookSlot exBookReq exDb [("bookSlot:ip:1.2.3.4", List.replicate 30 0)] 1).rlKeys =
      ["bookSlot:ip:" ++ exBookReq.ip] :=
  (rate_limit_keys_characterization.2 exBookReq exDb
      [("bookSlot:ip:1.2.3.4", List.replicate 30 0)] 1
      (by decide) (by decide) (by decide) (by decide) (by decide) (by decide)).1
    (by decide)

/-! ## Claim C1: the conditional acquire and no double success -/

theorem bookSlot_reaches_finish (req : BookReq) (db : Db) (rl : RLStore) (now : Int)
    (ctx : String × Slot)
    (hm : req.httpMethod = "POST") (hlen : req.bodyLen ≤ 10000)
    (hslot : optFalsy req.slotId = false) (htok : optFalsy req.token = false)
    (hslen : (orEmpty req.slotId).length ≤ 64)
    (htlen : (orEmpty req.token).length ≤ 256)
    (hip : (rateLimit rl ("bookSlot:ip:" ++ req.ip) 30 3600000 now).1.allowed = true)
    (htokrl : (rateLimit (rateLimit rl ("bookSlot:ip:" ++ req.ip) 30 3600000 now).2
      ("bookSlot:tok:" ++ jsTrim (orEmpty req.token)) 10 3600000 now).1.allowed = true)
    (hauth : bookSlotAuthorize (orEmpty req.slotId) (jsTrim (orEmpty req.token)) db =
      Sum.inr ctx) :
    bookSlot req db rl now = bookSlotFinish req db ctx.1 ctx.2
      ["bookSlot:ip:" ++ req.ip, "bookSlot:tok:" ++ jsTrim (orEmpty req.token)]
      (rateLimit (rateLimit rl ("bookSlot:ip:" ++ req.ip) 30 3600000 now).2
        ("bookSlot:tok:" ++ jsTrim (orEmpty req.token)) 10 3600000 now).2 := by
  unfold bookSlot
  rw [if_neg (by simp [hm]), if_neg (by omega), if_neg (by simp [hslot, htok]),
    if_neg (by simp only [Bool.or_eq_true, decide_eq_true_eq, not_or]; omega),
    if_neg (by simp [hip]), if_neg (by simp [htokrl]), hauth]

/-- Claim C1: (a) for a request that reaches the acquire step, when the
conditional update `available → booked` affects zero rows the handler
responds 400 "Slot not available anymore", the table keeps exactly the state
the release step left, and every slot with the requested id is unchanged
from before the request; when it affects rows, the handler responds 200 and
(under unique slot ids) every slot with the requested id is booked with the
applicant's id set.  (b) Two sequential runs of the release-then-acquire
engine for the same slot by different applicants can never both succeed: if
the first acquire affected rows, the second affects zero rows. -/
theorem bookSlot_conditional_acquire_no_double_success :
    (∀ (req : BookReq) (db : Db) (rl : RLStore) (now : Int) (ctx : String × Slot),
      req.httpMethod = "POST" → req.bodyLen ≤ 10000 →
      optFalsy req.slotId = false → optFalsy req.token = false →
      (orEmpty req.slotId).length ≤ 64 → (orEmpty req.token).length ≤ 256 →
      (rateLimit rl ("bookSlot:ip:" ++ req.ip) 30 3600000 now).1.allowed = true →
      (rateLimit (rateLimit rl ("bookSlot:ip:" ++ req.ip) 30 3600000 now).2
        ("bookSlot:tok:" ++ jsTrim (orEmpty req.token)) 10 3600000 now).1.allowed = true →
      bookSlotAuthorize (orEmpty req.slotId) (jsTrim (orEmpty req.token)) db =
        Sum.inr ctx →
      req.dbUpdateError = false →
      ((bookSlotDbStep db.viewings (orEmpty req.slotId) ctx.1 ctx.2.property_id).2 = [] →
        (bookSlot req db rl now).resp = ⟨400, some "Slot not available anymore"⟩ ∧
        (bookSlot req db rl now).db.viewings =
          releaseExisting db.viewings ctx.1 ctx.2.property_id ∧
        (∀ t ∈ db.viewings, t.id = orEmpty req.slotId →
          t ∈ (bookSlot req db rl now).db.viewings)) ∧
      ((slotIds db.viewings).Nodup →
       (bookSlotDbStep db.viewings (orEmpty req.slotId) ctx.1 ctx.2.property_id).2 ≠ [] →
        (bookSlot req db rl now).resp.status = 200 ∧
        (∀ t ∈ (bookSlot req db rl now).db.viewings, t.id = orEmpty req.slotId →
          t.status = SlotStatus.booked ∧ t.applicant_id = some ctx.1))) ∧
    (∀ (vs : List Slot) (slotId a1 a2 p1 p2 : String),
      (slotIds vs).Nodup → a1 ≠ a2 →
      (bookSlotDbStep vs slotId a1 p1).2 ≠ [] →
      (bookSlotDbStep (bookSlotDbStep vs slotId a1 p1).1 slotId a2 p2).2 = []) := by
  constructor
  · intro req db rl now ctx hm hlen hslot htok hslen htlen hip htokrl hauth hupd
    have hrun := bookSlot_reaches_finish req db rl now ctx hm hlen hslot htok hslen
      htlen hip htokrl hauth
    constructor
    · intro hnil
      rw [hrun]
      unfold bookSlotFinish
      rw [if_neg (by simp [hupd])]
      have hstep : bookSlotDbStep db.viewings (orEmpty req.slotId) ctx.1
          ctx.2.property_id =
          acquireSlot (releaseExisting db.viewings ctx.1 ctx.2.property_id)
            (orEmpty req.slotId) ctx.1 := rfl
      rw [hstep] at hnil
      dsimp only
      rw [hnil]
      have hfst := acquireSlot_fst_of_rows_nil hnil
      refine ⟨rfl, by simpa using hfst, ?_⟩
      intro t ht htid
      simp only [hfst]
      have hall := (acquireSlot_rows_nil_iff _ _ _).mp hnil
      rcases releaseExisting_cases db.viewings ctx.1 ctx.2.property_id with hcase | hcase
      · rw [hcase]
        exact ht
      · obtain ⟨ex, hex, hexb, hexeq⟩ := hcase
        have hexid : ex.id ≠ orEmpty req.slotId := by
          intro hexid
          have hfree : ({ ex with status := SlotStatus.available, applicant_id := none } : Slot) ∈
              releaseExisting db.viewings ctx.1 ctx.2.property_id := by
            rw [hexeq]
            have := List.mem_map_of_mem (fun s : Slot =>
              if s.id = ex.id then
                { s with status := SlotStatus.available, applicant_id := none }
              else s) hex
            simpa using this
          have := hall _ hfree
          simp [hexid] at this
        rw [hexeq]
        refine List.mem_map.mpr ⟨t, ht, ?_⟩
        rw [if_neg (by rw [htid]; exact fun h => hexid h.symm)]
    · intro hnd hne
      rw [hrun]
      unfold bookSlotFinish
      rw [if_neg (by simp [hupd])]
      have hstep : bookSlotDbStep db.viewings (orEmpty req.slotId) ctx.1
          ctx.2.property_id =
          acquireSlot (releaseExisting db.viewings ctx.1 ctx.2.property_id)
            (orEmpty req.slotId) ctx.1 := rfl
      rw [hstep] at hne
      have hnd1 : (slotIds (releaseExisting db.viewings ctx.1 ctx.2.property_id)).Nodup := by
        rw [slotIds_releaseExisting]
        exact hnd
      obtain ⟨u, hu, huhit⟩ : ∃ u ∈ releaseExisting db.viewings ctx.1 ctx.2.property_id,
          acquireHit (orEmpty req.slotId) u = true := by
        rw [acquireSlot_snd] at hne
        obtain ⟨x, hx⟩ := List.exists_mem_of_ne_nil _ hne
        obtain ⟨u, hu, _⟩ := List.mem_map.mp hx
        exact ⟨u, (List.mem_filter.mp hu).1, (List.mem_filter.mp hu).2⟩
      dsimp only
      cases hacq : (acquireSlot (releaseExisting db.viewings ctx.1 ctx.2.property_id)
          (orEmpty req.slotId) ctx.1).2 with
      | nil => exact absurd hacq hne
      | cons newSlot rest =>
          refine ⟨by dsimp only <;> (split <;> rfl), ?_⟩
          intro t ht htid
          have ht' : t ∈ (acquireSlot (releaseExisting db.viewings ctx.1 ctx.2.property_id)
              (orEmpty req.slotId) ctx.1).1 := by
            revert ht
            dsimp only
            split <;> (intro ht; exact ht)
          rw [acquireSlot_fst] at ht'
          obtain ⟨s, hs, hts⟩ := List.mem_map.mp ht'
          by_cases hhit : acquireHit (orEmpty req.slotId) s = true
          · rw [if_pos hhit] at hts
            rw [← hts]
            exact ⟨rfl, rfl⟩
          · rw [if_neg hhit] at hts
            subst hts
            have hus : u = s := nodup_ids_inj hnd1 hu hs (by
              have h2 := (by simpa [acquireHit] using huhit :
                u.id = orEmpty req.slotId ∧ u.status = SlotStatus.available)
              rw [h2.1, htid])
            rw [← hus] at hhit
            exact absurd huhit hhit
  · intro vs slotId a1 a2 p1 p2 hnd hne hrows1
    have hnd1 : (slotIds (releaseExisting vs a1 p1)).Nodup := by
      rw [slotIds_releaseExisting]
      exact hnd
    have hndvs1 : (slotIds (bookSlotDbStep vs slotId a1 p1).1).Nodup := by
      rw [slotIds_bookSlotDbStep]
      exact hnd
    obtain ⟨u, hu, huhit⟩ : ∃ u ∈ releaseExisting vs a1 p1,
        acquireHit slotId u = true := by
      unfold bookSlotDbStep at hrows1
      rw [acquireSlot_snd] at hrows1
      obtain ⟨x, hx⟩ := List.exists_mem_of_ne_nil _ hrows1
      obtain ⟨u, hu, _⟩ := List.mem_map.mp hx
      exact ⟨u, (List.mem_filter.mp hu).1, (List.mem_filter.mp hu).2⟩
    have hbooked : ∀ t ∈ (bookSlotDbStep vs slotId a1 p1).1, t.id = slotId →
        t.status = SlotStatus.booked ∧ t.applicant_id = some a1 := by
      intro t ht htid
      have hfst : (bookSlotDbStep vs slotId a1 p1).1 =
          (releaseExisting vs a1 p1).map (fun s =>
            if acquireHit slotId s then
              { s with status := SlotStatus.booked, applicant_id := some a1 }
            else s) := by
        unfold bookSlotDbStep
        rw [acquireSlot_fst]
      rw [hfst] at ht
      obtain ⟨s, hs, hts⟩ := List.mem_map.mp ht
      by_cases hhit : acquireHit slotId s = true
      · rw [if_pos hhit] at hts
        rw [← hts]
        exact ⟨rfl, rfl⟩
      · rw [if_neg hhit] at hts
        subst hts
        have hus : u = s := nodup_ids_inj hnd1 hu hs (by
          have h2 := (by simpa [acquireHit] using huhit :
            u.id = slotId ∧ u.status = SlotStatus.available)
          rw [h2.1, htid])
        rw [← hus] at hhit
        exact absurd huhit hhit
    show (acquireSlot (releaseExisting (bookSlotDbStep vs slotId a1 p1).1 a2 p2)
      slotId a2).2 = []
    rw [acquireSlot_rows_nil_iff]
    intro s hsrel hscontra
    rcases releaseExisting_cases (bookSlotDbStep vs slotId a1 p1).1 a2 p2 with hcase | hcase
    · rw [hcase] at hsrel
      have := hbooked s hsrel hscontra.1
      rw [this.1] at hscontra
      exact SlotStatus.noConfusion hscontra.2
    · obtain ⟨ex2, hex2, hex2b, hex2eq⟩ := hcase
      rw [hex2eq] at hsrel
      obtain ⟨w, hw, hws⟩ := List.mem_map.mp hsrel
      have hex2props : ex2.applicant_id = some a2 ∧ ex2.property_id = p2 ∧
          ex2.status = SlotStatus.booked := by
        simpa [isBookedFor] using hex2b
      by_cases hwid : w.id = ex2.id
      · have hwex : w = ex2 := nodup_ids_inj hndvs1 hw hex2 hwid
        rw [if_pos hwid] at hws
        have hsid : s.id = w.id := by
          rw [← hws]
        rw [hwex] at hsid
        have : ex2.id = slotId := by
          rw [← hsid]
          exact hscontra.1
        have := hbooked ex2 hex2 this
        rw [hex2props.1] at this
        have ha12 : some a1 = some a2 := this.2.symm
        exact hne (Option.some.injEq a1 a2 ▸ ha12 ▸ rfl)
      · rw [if_neg hwid] at hws
        subst hws
        have := hbooked w hw hscontra.1
        rw [this.1] at hscontra
        exact SlotStatus.noConfusion hscontra.2

/-- Witness for C1: with the fixture database (slot S1 available, token
tok-1 for applicant A1), the handler books S1 for A1: the success branch of
part (a) applied at a concrete input. -/
theorem bookSlot_conditional_acquire_witness :
    (bookSlot exBookReq exDb [] 0).resp.status = 200 ∧
    (∀ t ∈ (bookSlot exBookReq exDb [] 0).db.viewings, t.id = orEmpty exBookReq.slotId →
      t.status = SlotStatus.booked ∧ t.applicant_id = some ("A1", exSlot).1) :=
  (bookSlot_conditional_acquire_no_double_success.1 exBookReq exDb [] 0 ("A1", exSlot)
    (by decide) (by decide) (by decide) (by decide) (by decide) (by decide)
    (by decide) (by decide) (by decide) (by decide)).2 (by decide) (by decide)

/-! ## Claim C7: token/property binding -/

theorem capture_reaches_finish (req : CaptureReq) (db : Db) (faults : CaptureFaults)
    (rl : RLStore) (now : Int) (ctx : String × String)
    (hm : req.httpMethod = "POST") (hb : req.hasBody = true)
    (hlen : req.bodyLen ≤ 50000)
    (hrl : (rateLimit rl ("captureSalesFinance:ip:" ++ req.ip) 30 3600000 now).1.allowed = true)
    (hv : captureValidateBody req = none)
    (hres : captureResolveToken req db = Sum.inr ctx) :
    captureSalesFinance req db faults rl now =
      captureFinish req db faults ctx.1 ctx.2 ["captureSalesFinance:ip:" ++ req.ip]
        (rateLimit rl ("captureSalesFinance:ip:" ++ req.ip) 30 3600000 now).2 := by
  unfold captureSalesFinance
  rw [if_neg (by simp [hm]), if_neg (by simp [hb]), if_neg (by omega)]
  dsimp only
  rw [if_neg (by simp [hrl]), hv, hres]

theorem capture_resolve_inl (req : CaptureReq) (db : Db) (faults : CaptureFaults)
    (rl : RLStore) (now : Int) (r : Resp)
    (hm : req.httpMethod = "POST") (hb : req.hasBody = true)
    (hlen : req.bodyLen ≤ 50000)
    (hrl : (rateLimit rl ("captureSalesFinance:ip:" ++ req.ip) 30 3600000 now).1.allowed = true)
    (hv : captureValidateBody req = none)
    (hres : captureResolveToken req db = Sum.inl r) :
    captureSalesFinance req db faults rl now =
      { resp := r, identity_changed := none, db := db, writes := [], audits := [],
        rlKeys := ["captureSalesFinance:ip:" ++ req.ip],
        rl := (rateLimit rl ("captureSalesFinance:ip:" ++ req.ip) 30 3600000 now).2 } := by
  unfold captureSalesFinance
  rw [if_neg (by simp [hm]), if_neg (by simp [hb]), if_neg (by omega)]
  dsimp only
  rw [if_neg (by simp [hrl]), hv, hres]

theorem captureResolveToken_finance_mismatch (req : CaptureReq) (db : Db)
    (claims : FinClaims)
    (hft : jsTrim (orEmpty req.finance_token) ≠ "")
    (hsec : req.secretSet = true)
    (hjwt : req.jwtClaims = some claims)
    (hpurp : claims.purpose = some "finance_form_v1")
    (ha : optFalsy claims.applicant_id = false)
    (hp : optFalsy claims.property_id = false)
    (hc : optFalsy claims.property_code = false)
    (hmm : jsTrim (jsString claims.property_code) ≠ jsTrim (jsString req.property_code)) :
    captureResolveToken req db =
      Sum.inl ⟨401, some "finance_token does not match property_code"⟩ := by
  unfold captureResolveToken
  dsimp only
  rw [if_pos hft, if_neg (by simp [hsec]), hjwt]
  dsimp only
  rw [if_neg (by simp [hpurp]), if_neg (by simp [ha, hp, hc]), if_pos hmm]

theorem captureResolveToken_booking_mismatch (req : CaptureReq) (db : Db)
    (vt : ViewingTokenRow) (propCheck : PropertyRow)
    (hft : jsTrim (orEmpty req.finance_token) = "")
    (hbk : (jsTrim (orEmpty req.booking_token)).length ≤ 256)
    (hvt : maybeSingle (db.viewing_tokens.filter
      (fun v => v.token == jsTrim (orEmpty req.booking_token))) = some vt)
    (ha : optFalsy vt.applicant_id = false)
    (hp : optFalsy vt.property_id = false)
    (hprop : single (db.properties.filter
      (fun p => some p.id == vt.property_id)) = some propCheck)
    (hmm : jsTrim (jsString propCheck.property_code) ≠ jsTrim (jsString req.property_code)) :
    captureResolveToken req db =
      Sum.inl ⟨401, some "booking_token does not match property_code"⟩ := by
  unfold captureResolveToken
  dsimp only
  rw [if_neg (by simp [hft]), if_neg (by omega), hvt]
  dsimp only
  rw [if_neg (by simp [ha, hp]), hprop]
  dsimp only
  rw [if_pos hmm]

/-- Claim C7: once a token resolves, the caller-supplied `property_code`
must equal (after trimming) the property code bound to the token; a
mismatch yields 401 and no storage mutation.  Part 1: finance-token path of
the finance submission (the `property_code` claim).  Part 2: booking-token
path of the finance submission (the `property_code` column of the token's
property row).  Part 3: the resolve-booking-token endpoint (a GET endpoint,
which by construction writes nothing). -/
theorem token_property_mismatch_unauthorized :
    (∀ (req : CaptureReq) (db : Db) (faults : CaptureFaults) (rl : RLStore)
        (now : Int) (claims : FinClaims),
      req.httpMethod = "POST" → req.hasBody = true → req.bodyLen ≤ 50000 →
      (rateLimit rl ("captureSalesFinance:ip:" ++ req.ip) 30 3600000 now).1.allowed = true →
      captureValidateBody req = none →
      jsTrim (orEmpty req.finance_token) ≠ "" → req.secretSet = true →
      req.jwtClaims = some claims → claims.purpose = some "finance_form_v1" →
      optFalsy claims.applicant_id = false → optFalsy claims.property_id = false →
      optFalsy claims.property_code = false →
      jsTrim (jsString claims.property_code) ≠ jsTrim (jsString req.property_code) →
      (captureSalesFinance req db faults rl now).resp =
        ⟨401, some "finance_token does not match property_code"⟩ ∧
      (captureSalesFinance req db faults rl now).writes = [] ∧
      (captureSalesFinance req db faults rl now).db = db) ∧
    (∀ (req : CaptureReq) (db : Db) (faults : CaptureFaults) (rl : RLStore)
        (now : Int) (vt : ViewingTokenRow) (propCheck : PropertyRow),
      req.httpMethod = "POST" → req.hasBody = true → req.bodyLen ≤ 50000 →
      (rateLimit rl ("captureSalesFinance:ip:" ++ req.ip) 30 3600000 now).1.allowed = true →
      captureValidateBody req = none →
      jsTrim (orEmpty req.finance_token) = "" →
      (jsTrim (orEmpty req.booking_token)).length ≤ 256 →
      maybeSingle (db.viewing_tokens.filter
        (fun v => v.token == jsTrim (orEmpty req.booking_token))) = some vt →
      optFalsy vt.applicant_id = false → optFalsy vt.property_id = false →
      single (db.properties.filter
        (fun p => some p.id == vt.property_id)) = some propCheck →
      jsTrim (jsString propCheck.property_code) ≠ jsTrim (jsString req.property_code) →
      (captureSalesFinance req db faults rl now).resp =
        ⟨401, some "booking_token does not match property_code"⟩ ∧
      (captureSalesFinance req db faults rl now).writes = [] ∧
      (captureSalesFinance req db faults rl now).db = db) ∧
    (∀ (req : ResolveReq) (db : Db) (rl : RLStore) (now : Int)
        (vt : ViewingTokenRow) (prop : PropertyRow),
      req.httpMethod = "GET" → req.supabaseEnvSet = true →
      jsTrim (orEmpty req.token) ≠ "" → jsTrim (orEmpty req.property_code) ≠ "" →
      (jsTrim (orEmpty req.token)).length ≤ 256 →
      (jsTrim (orEmpty req.property_code)).length ≤ 64 →
      (rateLimit rl ("resolveBookingToken:ip:" ++ req.ip) 120 600000 now).1.allowed = true →
      (rateLimit (rateLimit rl ("resolveBookingToken:ip:" ++ req.ip) 120 600000 now).2
        ("resolveBookingToken:tok:" ++ jsTrim (orEmpty req.token)) 60 600000 now).1.allowed = true →
      maybeSingle (db.viewing_tokens.filter
        (fun v => v.token == jsTrim (orEmpty req.token))) = some vt →
      single (db.properties.filter
        (fun p => some p.id == vt.property_id)) = some prop →
      resolveBusinessOk prop.business_type = true →
      resolveStatusOk prop.status = true →
      jsTrim (orEmpty prop.property_code) ≠ jsTrim (orEmpty req.property_code) →
      (resolveBookingToken req db rl now).resp =
        ⟨401, some "Token does not match property"⟩) := by
  refine ⟨?_, ?_, ?_⟩
  · intro req db faults rl now claims hm hb hlen hrl hv hft hsec hjwt hpurp ha hp hc hmm
    have hres := captureResolveToken_finance_mismatch req db claims hft hsec hjwt
      hpurp ha hp hc hmm
    rw [capture_resolve_inl req db faults rl now _ hm hb hlen hrl hv hres]
    exact ⟨rfl, rfl, rfl⟩
  · intro req db faults rl now vt propCheck hm hb hlen hrl hv hft hbk hvt ha hp hprop hmm
    have hres := captureResolveToken_booking_mismatch req db vt propCheck hft hbk
      hvt ha hp hprop hmm
    rw [capture_resolve_inl req db faults rl now _ hm hb hlen hrl hv hres]
    exact ⟨rfl, rfl, rfl⟩
  · intro req db rl now vt prop hm henv htok hpc htlen hpclen hip htokrl hvt hprop hbz hst hmm
    unfold resolveBookingToken
    rw [if_neg (by simp [hm]), if_neg (by simp [henv])]
    dsimp only
    rw [if_neg (by simp [htok]), if_neg (by simp [hpc]), if_neg (by omega),
      if_neg (by omega), if_neg (by simp [hip]), if_neg (by simp [htokrl]), hvt]
    dsimp only
    rw [hprop]
    dsimp only
    rw [if_neg (by simp [hbz]), if_neg (by simp [hst]), if_pos hmm]

/-! ## Claim C9: identity-change logging and idempotent re-submission -/

theorem filter_map_applicants (l : List ApplicantRow) (aid : String)
    (f : ApplicantRow → ApplicantRow) (hf : ∀ x, (f x).id = x.id) :
    (l.map f).filter (fun a => a.id == aid) =
      (l.filter (fun a => a.id == aid)).map f := by
  rw [List.filter_map]
  congr 1
  apply List.filter_congr
  intro x _
  simp [Function.comp, hf]

theorem captureResolveToken_congr (req : CaptureReq) (db1 db2 : Db)
    (h1 : db1.viewing_tokens = db2.viewing_tokens)
    (h2 : db1.properties = db2.properties) :
    captureResolveToken req db1 = captureResolveToken req db2 := by
  unfold captureResolveToken
  rw [h1, h2]

set_option maxHeartbeats 1600000 in
theorem captureFinish_success (req : CaptureReq) (db : Db) (faults : CaptureFaults)
    (a p : String) (ks : List String) (rl : RLStore)
    (property : PropertyRow) (ex : ApplicantRow)
    (ha : a ≠ "") (hp : p ≠ "")
    (hpct : pctCheckError (numberOrNull req.own_funds_pct)
      (numberOrNull req.mortgage_pct) = none)
    (hprop : single (db.properties.filter (fun q => q.id == p)) = some property)
    (hbz : captureBusinessOk property.business_type = true)
    (hst : captureStatusOk property.status = true)
    (happ : single (db.applicants.filter (fun x => x.id == a)) = some ex)
    (hf2 : faults.updApplicantErr = false)
    (hf3 : faults.updInqErr = false)
    (hf4 : faults.insInqErr = false) :
    (captureFinish req db faults a p ks rl).resp.status = 200 ∧
    (captureFinish req db faults a p ks rl).identity_changed =
      some (identityChangedCalc ex (jsTrim (orEmpty req.full_name))
        req.email req.phone) ∧
    (captureFinish req db faults a p ks rl).db.viewing_tokens = db.viewing_tokens ∧
    (captureFinish req db faults a p ks rl).db.properties = db.properties ∧
    (captureFinish req db faults a p ks rl).db.applicants = db.applicants.map
      (fun x => if x.id = a then
        { x with
          full_name := some (jsTrim (orEmpty req.full_name))
          email := some (orEmpty req.email)
          phone := some (orEmpty req.phone)
          agreed_to_gdpr := true }
      else x) := by
  unfold captureFinish
  rw [if_neg (by simp [ha, hp])]
  dsimp only
  rw [hpct]
  dsimp only
  rw [hprop]
  dsimp only
  rw [if_neg (by simp [hbz]), if_neg (by simp [hst])]
  try dsimp only
  rw [happ]
  try dsimp only
  rw [if_neg (by simp [hf2])]
  repeat' (first | split | dsimp only)
  all_goals first
    | exact ⟨rfl, rfl, rfl, rfl, rfl⟩
    | simp_all

/-- Claim C9: (i) the identity-change test compares full_name, email and
phone whitespace-trimmed and case-sensitively — it reports "unchanged"
exactly when all three trimmed fields agree; (ii) whenever the test reports
a change, an IdentityChange record carrying the old and new values, the
applicant id, the property id and the `changed_by` tag "buyer_form" is
written before the applicant row is overwritten (it precedes the applicant
update in the write trace and lands in the identity_changes table);
(iii) submitting the finance form a second time with identical identity
fields yields `identity_changed = false` on the second call. -/
theorem identity_change_logging_and_idempotence :
    (∀ (ex : ApplicantRow) (fn : String) (em ph : Option String),
      identityChangedCalc ex fn em ph = false ↔
        (norm ex.full_name = jsTrim fn ∧ norm ex.email = norm em ∧
         norm ex.phone = norm ph)) ∧
    (∀ (req : CaptureReq) (db : Db) (faults : CaptureFaults) (a p : String)
        (ks : List String) (rl : RLStore) (property : PropertyRow)
        (ex : ApplicantRow),
      a ≠ "" → p ≠ "" →
      pctCheckError (numberOrNull req.own_funds_pct)
        (numberOrNull req.mortgage_pct) = none →
      single (db.properties.filter (fun q => q.id == p)) = some property →
      captureBusinessOk property.business_type = true →
      captureStatusOk property.status = true →
      single (db.applicants.filter (fun x => x.id == a)) = some ex →
      faults.insChangeErr = false → faults.updApplicantErr = false →
      identityChangedCalc ex (jsTrim (orEmpty req.full_name))
        req.email req.phone = true →
      (captureFinish req db faults a p ks rl).writes.take 2 =
        [DbWrite.identityChange
          { applicant_id := a, property_id := property.id,
            changed_by := "buyer_form",
            old_first_name := ex.full_name, old_last_name := none,
            old_email := ex.email, old_phone := ex.phone,
            new_first_name := jsTrim (orEmpty req.full_name),
            new_last_name := none,
            new_email := orEmpty req.email, new_phone := orEmpty req.phone },
         DbWrite.updateApplicant a (jsTrim (orEmpty req.full_name))
           (orEmpty req.email) (orEmpty req.phone)] ∧
      (captureFinish req db faults a p ks rl).db.identity_changes =
        db.identity_changes ++
          [{ applicant_id := a, property_id := property.id,
             changed_by := "buyer_form",
             old_first_name := ex.full_name, old_last_name := none,
             old_email := ex.email, old_phone := ex.phone,
             new_first_name := jsTrim (orEmpty req.full_name),
             new_last_name := none,
             new_email := orEmpty req.email, new_phone := orEmpty req.phone }]) ∧
    (∀ (req : CaptureReq) (db : Db) (rl : RLStore) (now1 now2 : Int)
        (ctx : String × String) (property : PropertyRow) (ex : ApplicantRow),
      req.httpMethod = "POST" → req.hasBody = true → req.bodyLen ≤ 50000 →
      (rateLimit rl ("captureSalesFinance:ip:" ++ req.ip) 30 3600000 now1).1.allowed = true →
      captureValidateBody req = none →
      captureResolveToken req db = Sum.inr ctx →
      ctx.1 ≠ "" → ctx.2 ≠ "" →
      pctCheckError (numberOrNull req.own_funds_pct)
        (numberOrNull req.mortgage_pct) = none →
      single (db.properties.filter (fun q => q.id == ctx.2)) = some property →
      captureBusinessOk property.business_type = true →
      captureStatusOk property.status = true →
      single (db.applicants.filter (fun x => x.id == ctx.1)) = some ex →
      (rateLimit (captureSalesFinance req db noFaults rl now1).rl
        ("captureSalesFinance:ip:" ++ req.ip) 30 3600000 now2).1.allowed = true →
      (captureSalesFinance req (captureSalesFinance req db noFaults rl now1).db
        noFaults (captureSalesFinance req db noFaults rl now1).rl now2).resp.status = 200 ∧
      (captureSalesFinance req (captureSalesFinance req db noFaults rl now1).db
        noFaults (captureSalesFinance req db noFaults rl now1).rl now2).identity_changed =
        some false) := by
  refine ⟨?_, ?_, ?_⟩
  · intro ex fn em ph
    simp [identityChangedCalc, norm, orEmpty, and_assoc]
  · intro req db faults a p ks rl property ex ha hp hpct hprop hbz hst happ hf1 hf2 hch
    unfold captureFinish
    rw [if_neg (by simp [ha, hp])]
    dsimp only
    rw [hpct]
    dsimp only
    rw [hprop]
    dsimp only
    rw [if_neg (by simp [hbz]), if_neg (by simp [hst])]
    try dsimp only
    rw [happ]
    try dsimp only
    rw [if_neg (by simp [hf2])]
    repeat' (first | split | dsimp only)
    all_goals
      first
        | exact ⟨rfl, rfl⟩
        | (rename_i hcontra; exact absurd ⟨hch, hf1⟩ hcontra)
        | simp_all
  · intro req db rl now1 now2 ctx property ex hm hb hlen hrl1 hv hres ha hp hpct
      hprop hbz hst happ hrl2
    have h1 : captureSalesFinance req db noFaults rl now1 =
        captureFinish req db noFaults ctx.1 ctx.2
          ["captureSalesFinance:ip:" ++ req.ip]
          (rateLimit rl ("captureSalesFinance:ip:" ++ req.ip) 30 3600000 now1).2 :=
      capture_reaches_finish req db noFaults rl now1 ctx hm hb hlen hrl1 hv hres
    obtain ⟨_, _, hvt1, hprops1, happs1⟩ :=
      captureFinish_success req db noFaults ctx.1 ctx.2
        ["captureSalesFinance:ip:" ++ req.ip]
        (rateLimit rl ("captureSalesFinance:ip:" ++ req.ip) 30 3600000 now1).2
        property ex ha hp hpct hprop hbz hst happ rfl rfl rfl
    set updFn := fun x : ApplicantRow => if x.id = ctx.1 then
      { x with
        full_name := some (jsTrim (orEmpty req.full_name))
        email := some (orEmpty req.email)
        phone := some (orEmpty req.phone)
        agreed_to_gdpr := true }
      else x with hupdFn
    have hupdid : ∀ x, (updFn x).id = x.id := by
      intro x
      simp only [hupdFn]
      split <;> rfl
    have hres2 : captureResolveToken req (captureSalesFinance req db noFaults rl now1).db =
        Sum.inr ctx := by
      rw [h1]
      rw [captureResolveToken_congr req _ db hvt1 hprops1]
      exact hres
    have h2 : captureSalesFinance req (captureSalesFinance req db noFaults rl now1).db
        noFaults (captureSalesFinance req db noFaults rl now1).rl now2 =
        captureFinish req (captureSalesFinance req db noFaults rl now1).db noFaults
          ctx.1 ctx.2 ["captureSalesFinance:ip:" ++ req.ip]
          (rateLimit (captureSalesFinance req db noFaults rl now1).rl
            ("captureSalesFinance:ip:" ++ req.ip) 30 3600000 now2).2 :=
      capture_reaches_finish req _ noFaults _ now2 ctx hm hb hlen hrl2 hv hres2
    have hexid : ex.id = ctx.1 := by
      have hl := single_eq_some.mp happ
      have hmem : ex ∈ db.applicants.filter (fun x => x.id == ctx.1) := by
        rw [hl]
        exact List.mem_singleton.mpr rfl
      have := (List.mem_filter.mp hmem).2
      simpa using this
    have happ2 : single ((captureSalesFinance req db noFaults rl now1).db.applicants.filter
        (fun x => x.id == ctx.1)) = some (updFn ex) := by
      rw [h1, happs1]
      rw [filter_map_applicants _ _ updFn hupdid]
      rw [single_eq_some.mp happ]
      rfl
    have hprop2 : single ((captureSalesFinance req db noFaults rl now1).db.properties.filter
        (fun q => q.id == ctx.2)) = some property := by
      rw [h1, hprops1]
      exact hprop
    obtain ⟨hstat2, hid2, _, _, _⟩ :=
      captureFinish_success req (captureSalesFinance req db noFaults rl now1).db
        noFaults ctx.1 ctx.2 ["captureSalesFinance:ip:" ++ req.ip]
        (rateLimit (captureSalesFinance req db noFaults rl now1).rl
          ("captureSalesFinance:ip:" ++ req.ip) 30 3600000 now2).2
        property (updFn ex) ha hp hpct hprop2 hbz hst happ2 rfl rfl rfl
    have hnochange : identityChangedCalc (updFn ex)
        (jsTrim (orEmpty req.full_name)) req.email req.phone = false := by
      have hupdex : updFn ex = { ex with
          full_name := some (jsTrim (orEmpty req.full_name))
          email := some (orEmpty req.email)
          phone := some (orEmpty req.phone)
          agreed_to_gdpr := true } := by
        simp [hupdFn, hexid]
      rw [hupdex]
      simp [identityChangedCalc, norm, orEmpty]
    constructor
    · rw [h2]
      exact hstat2
    · rw [h2, hid2, hnochange]

/-- Witness for C7: a verified finance token bound to property code "OTHER"
with caller-supplied code "077-NP1" yields 401 and no mutation. -/
theorem token_property_mismatch_witness :
    (captureSalesFinance exCapReqFin exDb noFaults [] 0).resp =
      ⟨401, some "finance_token does not match property_code"⟩ ∧
    (captureSalesFinance exCapReqFin exDb noFaults [] 0).writes = [] ∧
    (captureSalesFinance exCapReqFin exDb noFaults [] 0).db = exDb :=
  token_property_mismatch_unauthorized.1 exCapReqFin exDb noFaults [] 0 exFinClaims
    (by decide) (by decide) (by decide) (by decide) (by decide) (by decide)
    (by decide) (by decide) (by decide) (by decide) (by decide) (by decide)
    (by decide)

/-- Witness for C9: submitting the fixture finance form twice with identical
identity fields gives a 200 with `identity_changed = false` on the second
call. -/
theorem identity_change_idempotence_witness :
    (captureSalesFinance exCapReq (captureSalesFinance exCapReq exDb noFaults [] 0).db
      noFaults (captureSalesFinance exCapReq exDb noFaults [] 0).rl 1).resp.status = 200 ∧
    (captureSalesFinance exCapReq (captureSalesFinance exCapReq exDb noFaults [] 0).db
      noFaults (captureSalesFinance exCapReq exDb noFaults [] 0).rl 1).identity_changed =
      some false :=
  identity_change_logging_and_idempotence.2.2 exCapReq exDb [] 0 1 ("A1", "P1")
    exProp exApplicant (by decide) (by decide) (by decide) (by decide) (by decide)
    (by decide) (by decide) (by decide) (by decide) (by decide) (by decide)
    (by decide) (by decide) (by decide)

end Prodej
